import Mathlib

/-!
# atbapi: cache-aside data access and fault mapping

A shallow embedding of `api/api.go` and the record types of `atb/atb.go`.

* The network behind `atb.Client` is an oracle: the outcome of the n-th call.
* Mutable state is passed explicitly: the cache and the number of upstream
  calls issued so far.
* Time is an integer number of nanoseconds; every operation receives the
  reading `now` of the clock at which it runs.
-/

set_option autoImplicit false
set_option linter.dupNamespace false

deriving instance DecidableEq for Except

namespace atb

/-- A bus stop as delivered by AtB (`atb.BusStop`). -/
structure BusStop where
  StopID : Int
  NodeID : String
  Description : String
  Longitude : String
  Latitude : Int
  MobileCode : String
  MobileName : String
deriving DecidableEq, Repr

/-- A list of bus stops as delivered by AtB (`atb.BusStops`). -/
structure BusStops where
  Stops : List BusStop
deriving DecidableEq, Repr

/-- A bus stop returned as a part of a forecast (`atb.NodeInfo`). -/
structure NodeInfo where
  Name : String
  NodeID : String
  NodeName : String
  NodeDescription : String
  BitMaskProperties : String
  MobileCode : String
  Longitude : String
  Latitude : String
deriving DecidableEq, Repr

/-- A single forecast (`atb.Forecast`). -/
structure Forecast where
  LineID : String
  LineDescription : String
  RegisteredDepartureTime : String
  ScheduledDepartureTime : String
  StationForecast : String
  Destination : String
deriving DecidableEq, Repr

/-- A list of forecasts (`atb.Forecasts`). -/
structure Forecasts where
  Nodes : List NodeInfo
  Forecasts : List Forecast
  Total : Int
deriving DecidableEq, Repr

/-- The client talking to AtB. `GetBusStops` and `GetRealTimeForecast` post a
request over the network; here the network is an oracle giving the outcome of
the call with a given sequence number (counted per operation, from 0): either
the decoded records or the text of the error. -/
structure Client where
  GetBusStops : Nat → Except String BusStops
  GetRealTimeForecast : Nat → Int → Except String Forecasts

end atb

namespace api

/-! ## Data model -/

/-- Modelled from the spec: the type `BusStop` of package api is declared
outside the two source files. Section 3 of the spec lists a numeric station
identifier, the node identifier used as the public lookup key, a name,
geographic coordinates and short codes; `api.go` uses `NodeID` as a key of
`map[int]*BusStop`, so it is an integer. Coordinates are kept as text. -/
structure BusStop where
  StopID : Int
  NodeID : Int
  Description : String
  Longitude : String
  Latitude : String
  MobileCode : String
  MobileName : String
deriving DecidableEq, Repr

/-- A `*BusStop` obtained as `&busStops.Stops[i]`: the sequence pointed into
and an offset inside it. Stop sequences are never mutated after they are
built, so the sequence itself stands for its backing array. -/
structure BusStopPtr where
  base : List BusStop
  idx : Fin base.length

/-- Dereference a `*BusStop`. -/
def BusStopPtr.deref (p : BusStopPtr) : BusStop := p.base.get p.idx

/-- A Go `map[int]*BusStop`; a nil map and an empty map both have no key. -/
abbrev NodeIDMap := Int → Option BusStopPtr

/-- The statement `m[k] = v` on a `map[int]*BusStop`. -/
def NodeIDMap.store (m : NodeIDMap) (k : Int) (v : BusStopPtr) : NodeIDMap :=
  fun k' => if k' = k then some v else m k'

/-- Modelled from the spec: the type `BusStops` of package api is declared
outside the two source files. Section 3 of the spec: an ordered sequence of
stops (StopDirectory) together with the derived StopIndex; `api.go` names the
two fields `Stops` and `nodeIDs`. -/
structure BusStops where
  Stops : List BusStop
  nodeIDs : NodeIDMap

/-- Modelled from the spec: the element type of `Departures` is declared
outside the two source files. Section 3 of the spec: line identifier,
destination, scheduled and real-time departure time, status. -/
structure Departure where
  LineID : String
  Destination : String
  ScheduledDepartureTime : String
  RegisteredDepartureTime : String
  IsRealtimeData : Bool
deriving DecidableEq, Repr

/-- Modelled from the spec: the type `Departures` of package api is declared
outside the two source files. Section 3 of the spec: the per-stop collection
of forecasted departures. -/
structure Departures where
  Departures : List Departure
deriving DecidableEq, Repr

/-- Go `error` values met in `api.go`, told apart by the place that creates
them: the `fmt.Errorf` of the failed type assertion, an error returned by the
upstream client, an error returned by a transform, an error of
`strconv.Atoi`. -/
inductive GoError where
  | typeAssertion : GoError
  | client (text : String) : GoError
  | convert (text : String) : GoError
  | numError (input : String) : GoError
deriving DecidableEq, Repr

/-- Modelled from the spec: the type `Error` of package api is declared outside
the two source files. Section 4.3 and 6 of the spec: status, message and the
wrapped cause, which is never serialised; `api.go` names the fields `err`,
`Status` and `Message`. -/
structure Error where
  err : Option GoError
  Status : Nat
  Message : String
deriving DecidableEq, Repr

/-- The constant `http.StatusBadRequest`. -/
def StatusBadRequest : Nat := 400
/-- The constant `http.StatusNotFound`. -/
def StatusNotFound : Nat := 404
/-- The constant `http.StatusInternalServerError`. -/
def StatusInternalServerError : Nat := 500

/-! ## strconv -/

/-- The character of a decimal digit. -/
def digitChar (d : Nat) : Char := Char.ofNat (48 + d)

/-- Decimal digits of `n`, least significant first; `fuel` bounds the number of
digits produced and `n` itself is always enough. -/
def natDigits : Nat → Nat → List Nat
  | 0, _ => []
  | fuel + 1, n => if n = 0 then [] else (n % 10) :: natDigits fuel (n / 10)

/-- Decimal representation of a natural number. -/
def formatNat (n : Nat) : List Char :=
  if n = 0 then ['0'] else (natDigits n n).reverse.map digitChar

/-- The function `strconv.Itoa`, also what `%d` of `fmt.Sprintf` prints. -/
def Itoa (i : Int) : String :=
  match i with
  | Int.ofNat n => String.mk (formatNat n)
  | Int.negSucc n => String.mk ('-' :: formatNat (n + 1))

/-- Value of a decimal digit character, if it is one. -/
def digitVal (c : Char) : Option Nat :=
  if 48 ≤ c.toNat ∧ c.toNat ≤ 57 then some (c.toNat - 48) else none

/-- Value of a sequence of decimal digits read after the value `acc`; fails on
any other character. -/
def parseDigits : Nat → List Char → Option Nat
  | acc, [] => some acc
  | acc, c :: cs =>
    match digitVal c with
    | none => none
    | some d => parseDigits (acc * 10 + d) cs

/-- The optional sign in front of a number: whether it is a minus, and the
characters after it. -/
def splitSign (cs : List Char) : Bool × List Char :=
  match cs with
  | '-' :: r => (true, r)
  | '+' :: r => (false, r)
  | r => (false, r)

/-- The function `strconv.Atoi` on a 64-bit platform: an optional sign, then
one or more decimal digits, the value within the range of `int`. -/
def Atoi (s : String) : Except GoError Int :=
  match splitSign s.data with
  | (_, []) => Except.error (GoError.numError s)
  | (neg, c :: cs) =>
    match parseDigits 0 (c :: cs) with
    | none => Except.error (GoError.numError s)
    | some v =>
      let n : Int := if neg then -(v : Int) else (v : Int)
      if -(2 : Int) ^ 63 ≤ n ∧ n < (2 : Int) ^ 63 then Except.ok n
      else Except.error (GoError.numError s)

/-! ## The cache store -/

/-- A value held by the cache as `interface{}`: only values of these two
dynamic types are ever stored by `api.go`. -/
inductive Value where
  | busStops (b : BusStops) : Value
  | departures (d : Departures) : Value

/-- Modelled from the spec: a CacheEntry of the cache store (package go-cache,
imported by `api.go`): the stored value and the instant after which it is
expired, if any. -/
structure Item where
  Object : Value
  Expiration : Option Int

/-- Modelled from the spec: expiration is decided by comparing timestamps; an
entry without an expiration instant never expires. -/
def Item.Expired (it : Item) (now : Int) : Bool :=
  match it.Expiration with
  | none => false
  | some e => decide (e < now)

/-- Modelled from the spec: the Cache Store of section 4.1 (package go-cache):
a default time-to-live and a map from keys to entries. -/
structure Cache where
  defaultExpiration : Int
  items : String → Option Item

/-- The constant `cache.DefaultExpiration`: the time-to-live that stands for
the default of the store. -/
def DefaultExpiration : Int := 0

/-- The constant `cache.NoExpiration`. -/
def NoExpiration : Int := -1

/-- Modelled from the spec: `cache.New(defaultExpiration, cleanupInterval)`, an
empty store with the given default time-to-live. The spec does not say what a
default of zero means; as in go-cache it stands for no expiration. -/
def Cache.New (de : Int) : Cache :=
  { defaultExpiration := if de = 0 then NoExpiration else de
    items := fun _ => none }

/-- Modelled from the spec: `set(key, value, ttl)` of section 4.1 at instant
`now`. A zero time-to-live means the default of the store; an entry with a
positive time-to-live expires after `now + ttl`. The spec does not say what a
negative time-to-live means; as in go-cache the entry then never expires. The
entry replaces whatever was stored under the key. -/
def Cache.Set (c : Cache) (k : String) (x : Value) (d : Int) (now : Int) : Cache :=
  let d1 : Int := if d = DefaultExpiration then c.defaultExpiration else d
  let e : Option Int := if 0 < d1 then some (now + d1) else none
  { c with items := fun k' => if k' = k then some { Object := x, Expiration := e } else c.items k' }

/-- Modelled from the spec: `get(key)` of section 4.1 at instant `now`: a miss
when there is no entry or the entry is expired, swept or not. -/
def Cache.Get (c : Cache) (k : String) (now : Int) : Option Value :=
  match c.items k with
  | none => none
  | some it => if it.Expired now then none else some it.Object

/-- Modelled from the spec: the background sweep of section 4.1 at instant
`now`: every expired entry is purged. -/
def Cache.DeleteExpired (c : Cache) (now : Int) : Cache :=
  { c with items := fun k =>
      match c.items k with
      | none => none
      | some it => if it.Expired now then none else some it }

/-! ## The API -/

/-- The struct `expiration`. -/
structure expiration where
  departures : Int
  stops : Int
deriving DecidableEq, Repr

/-- The immutable part of the struct `API`: the client and the expiration
times. The cache it points to is in `State`. -/
structure API where
  Client : atb.Client
  expiration : expiration

/-- Modelled from the spec: the transforms `convertBusStops` and
`convertForecasts` of package api are declared outside the two source files.
Section 4.2, step 4, of the spec only says that each yields the transformed
value or fails on malformed data, so they are parameters. -/
structure Converters where
  convertBusStops : atb.BusStops → Except String BusStops
  convertForecasts : atb.Forecasts → Except String Departures

/-- What a request can change: the cache behind `API.cache` and the number of
calls issued so far to each operation of the upstream client. -/
structure State where
  cache : Cache
  busStopsCalls : Nat
  forecastCalls : Nat

/-- The loop of `getBusStops` that fills `nodeIDs`: for every position `i` in
order, `nodeIDs[Stops[i].NodeID] = &Stops[i]`, starting from an empty map. -/
def buildNodeIDs (stops : List BusStop) : NodeIDMap :=
  (List.finRange stops.length).foldl
    (fun m i => NodeIDMap.store m (stops.get i).NodeID { base := stops, idx := i })
    (fun _ => none)

/-- The method `API.getBusStops`. -/
def getBusStops (cv : Converters) (a : API) (now : Int) (s : State) :
    Except GoError BusStops × State :=
  match s.cache.Get "stops" now with
  | some cached =>
    match cached with
    | Value.busStops cachedBusStops => (Except.ok cachedBusStops, s)
    | Value.departures _ => (Except.error GoError.typeAssertion, s)
  | none =>
    let s1 : State := { s with busStopsCalls := s.busStopsCalls + 1 }
    match a.Client.GetBusStops s.busStopsCalls with
    | Except.error err => (Except.error (GoError.client err), s1)
    | Except.ok atbBusStops =>
      match cv.convertBusStops atbBusStops with
      | Except.error err => (Except.error (GoError.convert err), s1)
      | Except.ok converted =>
        let busStops : BusStops :=
          { converted with nodeIDs := buildNodeIDs converted.Stops }
        (Except.ok busStops,
          { s1 with cache := s1.cache.Set "stops" (Value.busStops busStops) a.expiration.stops now })

/-- The method `API.getDepartures`. -/
def getDepartures (cv : Converters) (a : API) (now : Int) (nodeID : Int) (s : State) :
    Except GoError Departures × State :=
  let cacheKey := Itoa nodeID
  match s.cache.Get cacheKey now with
  | some cached =>
    match cached with
    | Value.departures cachedDepartures => (Except.ok cachedDepartures, s)
    | Value.busStops _ => (Except.error GoError.typeAssertion, s)
  | none =>
    let s1 : State := { s with forecastCalls := s.forecastCalls + 1 }
    match a.Client.GetRealTimeForecast s.forecastCalls nodeID with
    | Except.error err => (Except.error (GoError.client err), s1)
    | Except.ok forecasts =>
      match cv.convertForecasts forecasts with
      | Except.error err => (Except.error (GoError.convert err), s1)
      | Except.ok departures =>
        (Except.ok departures,
          { s1 with cache := s1.cache.Set cacheKey (Value.departures departures) DefaultExpiration now })

/-- The method `API.BusStopsHandler`. -/
def BusStopsHandler (cv : Converters) (a : API) (now : Int) (s : State) :
    Except Error BusStops × State :=
  match getBusStops cv a now s with
  | (Except.error err, s1) =>
    (Except.error
      { err := some err
        Status := StatusInternalServerError
        Message := "failed to get bus stops from atb" }, s1)
  | (Except.ok busStops, s1) => (Except.ok busStops, s1)

/-- The method `API.BusStopHandler`; `nodeIDVar` is the path variable
`mux.Vars(req)["nodeID"]`. -/
def BusStopHandler (cv : Converters) (a : API) (now : Int) (nodeIDVar : String) (s : State) :
    Except Error BusStopPtr × State :=
  match Atoi nodeIDVar with
  | Except.error err =>
    (Except.error
      { err := some err
        Status := StatusBadRequest
        Message := "missing or invalid nodeID" }, s)
  | Except.ok nodeID =>
    match getBusStops cv a now s with
    | (Except.error err, s1) =>
      (Except.error
        { err := some err
          Status := StatusInternalServerError
          Message := "failed to get bus stops from atb" }, s1)
    | (Except.ok busStops, s1) =>
      match busStops.nodeIDs nodeID with
      | none =>
        (Except.error
          { err := none
            Status := StatusNotFound
            Message := "bus stop with nodeID=" ++ Itoa nodeID ++ " not found" }, s1)
      | some busStop => (Except.ok busStop, s1)

/-- The method `API.DeparturesHandler`; `nodeIDVar` is the path variable
`mux.Vars(req)["nodeID"]`. -/
def DeparturesHandler (cv : Converters) (a : API) (now : Int) (nodeIDVar : String) (s : State) :
    Except Error Departures × State :=
  match Atoi nodeIDVar with
  | Except.error err =>
    (Except.error
      { err := some err
        Status := StatusBadRequest
        Message := "missing or invalid nodeID" }, s)
  | Except.ok nodeID =>
    match getBusStops cv a now s with
    | (Except.error err, s1) =>
      (Except.error
        { err := some err
          Status := StatusInternalServerError
          Message := "could not get bus stops from atb" }, s1)
    | (Except.ok busStops, s1) =>
      match busStops.nodeIDs nodeID with
      | none =>
        (Except.error
          { err := none
            Status := StatusNotFound
            Message := "bus stop with nodeID=" ++ Itoa nodeID ++ " not found" }, s1)
      | some _ =>
        match getDepartures cv a now nodeID s1 with
        | (Except.error err, s2) =>
          (Except.error
            { err := some err
              Status := StatusInternalServerError
              Message := "could not get departures from atb" }, s2)
        | (Except.ok departures, s2) => (Except.ok departures, s2)

/-- The function `New`: the API and the state it starts in. -/
def New (client : atb.Client) (stopsExpiration depExpiration : Int) : API × State :=
  ({ Client := client
     expiration := { stops := stopsExpiration, departures := depExpiration } },
   { cache := Cache.New depExpiration, busStopsCalls := 0, forecastCalls := 0 })

/-- The states a server built by `New` can be in: the state `New` returns, and
the state after a call of `getBusStops`, a call of `getDepartures` or a sweep
of the cache store, each at an arbitrary instant. The three handlers only
change the state through `getBusStops` and `getDepartures`. -/
inductive Reachable (cv : Converters) (a : API) : State → Prop where
  | init : Reachable cv a (New a.Client a.expiration.stops a.expiration.departures).2
  | afterGetBusStops (now : Int) (s : State) :
      Reachable cv a s → Reachable cv a (getBusStops cv a now s).2
  | afterGetDepartures (now : Int) (nodeID : Int) (s : State) :
      Reachable cv a s → Reachable cv a (getDepartures cv a now nodeID s).2
  | afterSweep (now : Int) (s : State) :
      Reachable cv a s → Reachable cv a { s with cache := s.cache.DeleteExpired now }

/-- What every entry of a cache is, by its key: under "stops" a stop directory
whose index is the one built from its own stops, under any other key the
transform of a forecast that the client returned for the node whose decimal
representation is the key. -/
def CacheTyped (cv : Converters) (a : API) (c : Cache) : Prop :=
  ∀ k it, c.items k = some it →
    (k = "stops" ∧ ∃ b, it.Object = Value.busStops b ∧ b.nodeIDs = buildNodeIDs b.Stops) ∨
    (∃ n i raw d, k = Itoa n ∧ a.Client.GetRealTimeForecast i n = Except.ok raw ∧
      cv.convertForecasts raw = Except.ok d ∧ it.Object = Value.departures d)

/-! ## Sample data

The scenario of section 8 of the spec: three stops with node identifiers 101,
102 and 103. -/

/-- A record of the upstream stop list with the given node identifier. -/
def sampleRawStop (stopID : Int) (nodeID : String) : atb.BusStop :=
  { StopID := stopID, NodeID := nodeID, Description := "Prinsens gate", Longitude := "10.39",
    Latitude := 63, MobileCode := "16010", MobileName := "Prinsens gt" }

/-- A transform of one upstream stop: the node identifier is parsed as an
integer. -/
def sampleConvertBusStop (r : atb.BusStop) : Except String BusStop :=
  match Atoi r.NodeID with
  | Except.error _ => Except.error "invalid node identifier"
  | Except.ok n =>
    Except.ok
      { StopID := r.StopID, NodeID := n, Description := r.Description, Longitude := r.Longitude,
        Latitude := "63.43", MobileCode := r.MobileCode, MobileName := r.MobileName }

/-- A pair of transforms to run the scenario with. -/
def sampleConverters : Converters :=
  { convertBusStops := fun r =>
      match r.Stops.mapM sampleConvertBusStop with
      | Except.error e => Except.error e
      | Except.ok l => Except.ok { Stops := l, nodeIDs := fun _ => none }
    convertForecasts := fun f =>
      Except.ok
        { Departures := f.Forecasts.map fun x =>
            { LineID := x.LineID, Destination := x.Destination,
              ScheduledDepartureTime := x.ScheduledDepartureTime,
              RegisteredDepartureTime := x.RegisteredDepartureTime,
              IsRealtimeData := true } } }

/-- The stop list the sample client returns first. -/
def sampleRawStops : atb.BusStops :=
  { Stops := [sampleRawStop 1 "101", sampleRawStop 2 "102", sampleRawStop 3 "103"] }

/-- The stop list the sample client returns from its second call on. -/
def sampleRawStopsLater : atb.BusStops :=
  { Stops := [sampleRawStop 7 "103", sampleRawStop 8 "104"] }

/-- The forecast the sample client returns for node 101. -/
def sampleForecasts : atb.Forecasts :=
  { Nodes := []
    Forecasts :=
      [{ LineID := "6", LineDescription := "6", RegisteredDepartureTime := "2015-02-26T18:38:00",
         ScheduledDepartureTime := "2015-02-26T18:38:00", StationForecast := "Prev",
         Destination := "Munkegata M5" }]
    Total := 1 }

/-- An upstream that answers: three stops first, two other stops later, a
forecast for node 101 and an error for any other node. -/
def sampleClient : atb.Client :=
  { GetBusStops := fun i => if i = 0 then Except.ok sampleRawStops else Except.ok sampleRawStopsLater
    GetRealTimeForecast := fun _ nodeID =>
      if nodeID = 101 then Except.ok sampleForecasts else Except.error "no such node" }

/-- An upstream whose every call fails with the given text. -/
def failingClient (text : String) : atb.Client :=
  { GetBusStops := fun _ => Except.error text
    GetRealTimeForecast := fun _ _ => Except.error text }

/-- An upstream that returns the three stops and fails every forecast with the
given text. -/
def forecastFailingClient (text : String) : atb.Client :=
  { GetBusStops := fun _ => Except.ok sampleRawStops
    GetRealTimeForecast := fun _ _ => Except.error text }

/-- The stop directory the transform makes of the sample stop list. -/
def sampleStops : List BusStop :=
  [ { StopID := 1, NodeID := 101, Description := "Prinsens gate", Longitude := "10.39",
      Latitude := "63.43", MobileCode := "16010", MobileName := "Prinsens gt" },
    { StopID := 2, NodeID := 102, Description := "Prinsens gate", Longitude := "10.39",
      Latitude := "63.43", MobileCode := "16010", MobileName := "Prinsens gt" },
    { StopID := 3, NodeID := 103, Description := "Prinsens gate", Longitude := "10.39",
      Latitude := "63.43", MobileCode := "16010", MobileName := "Prinsens gt" } ]

/-- The stop directory `getBusStops` makes of the sample stop list. -/
def sampleDirectory : BusStops :=
  { Stops := sampleStops, nodeIDs := buildNodeIDs sampleStops }

/-- The API `New(sampleClient, 600, 30)`. -/
def sampleAPI : API := (New sampleClient 600 30).1

/-- The state `New(sampleClient, 600, 30)` starts in: an empty cache. -/
def sampleState0 : State := (New sampleClient 600 30).2

/-- The state after a first call of `getBusStops` at instant 0. -/
def sampleState1 : State := (getBusStops sampleConverters sampleAPI 0 sampleState0).2

/-- The stop directory the transform makes of the later sample stop list. -/
def sampleStopsLater : List BusStop :=
  [ { StopID := 7, NodeID := 103, Description := "Prinsens gate", Longitude := "10.39",
      Latitude := "63.43", MobileCode := "16010", MobileName := "Prinsens gt" },
    { StopID := 8, NodeID := 104, Description := "Prinsens gate", Longitude := "10.39",
      Latitude := "63.43", MobileCode := "16010", MobileName := "Prinsens gt" } ]

/-- The departures the transform makes of the sample forecast. -/
def sampleDepartures : Departures :=
  { Departures :=
      [{ LineID := "6", Destination := "Munkegata M5",
         ScheduledDepartureTime := "2015-02-26T18:38:00",
         RegisteredDepartureTime := "2015-02-26T18:38:00", IsRealtimeData := true }] }

/-- The state after the first call of `getBusStops` at instant 0 and a call of
`getDepartures` for node 101 at instant 3. -/
def sampleState2 : State := (getDepartures sampleConverters sampleAPI 3 101 sampleState1).2

/-! ## Facts about strconv -/

theorem natDigits_eq_digits (fuel : Nat) : ∀ n : Nat, n ≤ fuel → natDigits fuel n = Nat.digits 10 n := by
  induction fuel with
  | zero =>
    intro n hn
    have h0 : n = 0 := Nat.le_zero.mp hn
    subst h0
    simp [natDigits]
  | succ f ih =>
    intro n hn
    by_cases h0 : n = 0
    · subst h0
      simp [natDigits]
    · have hpos : 0 < n := Nat.pos_of_ne_zero h0
      have hdiv : n / 10 ≤ f := by omega
      rw [natDigits, if_neg h0, ih _ hdiv, Nat.digits_def' (by norm_num) hpos]

theorem digitVal_digitChar (d : Nat) (hd : d < 10) : digitVal (digitChar d) = some d := by
  interval_cases d <;> decide

theorem parseDigits_append (l1 l2 : List Char) :
    ∀ acc : Nat, parseDigits acc (l1 ++ l2) = (parseDigits acc l1).bind (fun v => parseDigits v l2) := by
  induction l1 with
  | nil => intro acc; simp [parseDigits]
  | cons c cs ih =>
    intro acc
    simp only [List.cons_append, parseDigits]
    cases digitVal c with
    | none => simp
    | some d => simpa using ih (acc * 10 + d)

theorem parseDigits_digits (ds : List Nat) :
    (∀ d ∈ ds, d < 10) → ∀ acc : Nat,
      parseDigits acc (ds.reverse.map digitChar) = some (acc * 10 ^ ds.length + Nat.ofDigits 10 ds) := by
  induction ds with
  | nil => intro _ acc; simp [parseDigits]
  | cons d ds ih =>
    intro hds acc
    have hd : d < 10 := hds d (List.mem_cons_self _ _)
    have hrest : ∀ x ∈ ds, x < 10 := fun x hx => hds x (List.mem_cons_of_mem _ hx)
    rw [List.reverse_cons, List.map_append, parseDigits_append, ih hrest acc]
    simp only [List.map_cons, List.map_nil, Option.some_bind, parseDigits, digitVal_digitChar d hd,
      Nat.ofDigits_cons, List.length_cons]
    congr 1
    ring

theorem parseDigits_formatNat (n : Nat) : parseDigits 0 (formatNat n) = some n := by
  by_cases h0 : n = 0
  · subst h0
    decide
  · rw [formatNat, if_neg h0, natDigits_eq_digits n n le_rfl,
      parseDigits_digits _ (fun d hd => Nat.digits_lt_base (by norm_num) hd) 0]
    simp [Nat.ofDigits_digits]

theorem formatNat_injective : Function.Injective formatNat := by
  intro n m h
  have h1 := parseDigits_formatNat n
  rw [h, parseDigits_formatNat m] at h1
  exact (Option.some.inj h1).symm

theorem parseDigits_minus (acc : Nat) (cs : List Char) : parseDigits acc ('-' :: cs) = none := by
  have h : digitVal '-' = none := by decide
  simp [parseDigits, h]

theorem Itoa_ofNat_data (n : Nat) : (Itoa (Int.ofNat n)).data = formatNat n := rfl

theorem Itoa_negSucc_data (n : Nat) : (Itoa (Int.negSucc n)).data = '-' :: formatNat (n + 1) := rfl

theorem Itoa_injective : Function.Injective Itoa := by
  intro a b h
  have hd := congrArg String.data h
  cases a with
  | ofNat n =>
    cases b with
    | ofNat m =>
      rw [Itoa_ofNat_data, Itoa_ofNat_data] at hd
      rw [formatNat_injective hd]
    | negSucc m =>
      rw [Itoa_ofNat_data, Itoa_negSucc_data] at hd
      have h1 := parseDigits_formatNat n
      rw [hd, parseDigits_minus] at h1
      cases h1
  | negSucc n =>
    cases b with
    | ofNat m =>
      rw [Itoa_ofNat_data, Itoa_negSucc_data] at hd
      have h1 := parseDigits_formatNat m
      rw [← hd, parseDigits_minus] at h1
      cases h1
    | negSucc m =>
      rw [Itoa_negSucc_data, Itoa_negSucc_data] at hd
      have h2 := formatNat_injective (List.cons.inj hd).2
      have h3 : n = m := by omega
      rw [h3]

theorem Itoa_ne_stops (n : Int) : Itoa n ≠ "stops" := by
  intro h
  have hd := congrArg String.data h
  cases n with
  | ofNat m =>
    rw [Itoa_ofNat_data] at hd
    have h1 := parseDigits_formatNat m
    have h2 : parseDigits 0 ("stops" : String).data = none := by decide
    rw [hd, h2] at h1
    cases h1
  | negSucc m =>
    rw [Itoa_negSucc_data] at hd
    have h3 : ('-' : Char) = 's' := (List.cons.inj hd).1
    revert h3
    decide

theorem formatNat_head (n : Nat) :
    ∃ c cs d, formatNat n = c :: cs ∧ digitVal c = some d := by
  have hparse := parseDigits_formatNat n
  cases hf : formatNat n with
  | nil =>
    rw [hf] at hparse
    simp only [parseDigits, Option.some.injEq] at hparse
    subst hparse
    have h0 : formatNat 0 ≠ [] := by decide
    exact absurd hf h0
  | cons c cs =>
    rw [hf] at hparse
    simp only [parseDigits] at hparse
    cases hd : digitVal c with
    | none => rw [hd] at hparse; cases hparse
    | some d => exact ⟨c, cs, d, rfl, hd⟩

theorem splitSign_digit (c : Char) (cs : List Char) (d : Nat) (hd : digitVal c = some d) :
    splitSign (c :: cs) = (false, c :: cs) := by
  have hminus : c ≠ '-' := by
    intro h
    subst h
    have h2 : digitVal '-' = none := by decide
    rw [h2] at hd
    cases hd
  have hplus : c ≠ '+' := by
    intro h
    subst h
    have h2 : digitVal '+' = none := by decide
    rw [h2] at hd
    cases hd
  unfold splitSign
  split
  · rename_i heq
    exact absurd (List.cons.inj heq).1 hminus
  · rename_i heq
    exact absurd (List.cons.inj heq).1 hplus
  · rfl

/-- Parsing the decimal representation of an integer in the range of `int`
gives the integer back. -/
theorem Atoi_Itoa (n : Int) (hlo : -(2 : Int) ^ 63 ≤ n) (hhi : n < (2 : Int) ^ 63) :
    Atoi (Itoa n) = Except.ok n := by
  cases n with
  | ofNat m =>
    obtain ⟨c, cs, d, hf, hd⟩ := formatNat_head m
    have hparse := parseDigits_formatNat m
    rw [hf] at hparse
    have hs : splitSign (Itoa (Int.ofNat m)).data = (false, c :: cs) := by
      rw [Itoa_ofNat_data, hf]
      exact splitSign_digit c cs d hd
    unfold Atoi
    rw [hs]
    simp only [hparse]
    have hr : -(2 : Int) ^ 63 ≤ (m : Int) ∧ (m : Int) < (2 : Int) ^ 63 := ⟨hlo, hhi⟩
    simp only [Bool.false_eq_true, if_false, hr, and_self, if_true]
    rfl
  | negSucc m =>
    obtain ⟨c, cs, d, hf, hd⟩ := formatNat_head (m + 1)
    have hparse := parseDigits_formatNat (m + 1)
    rw [hf] at hparse
    have hs : splitSign (Itoa (Int.negSucc m)).data = (true, c :: cs) := by
      rw [Itoa_negSucc_data, hf]
      rfl
    unfold Atoi
    rw [hs]
    simp only [hparse]
    have hv : -((m + 1 : Nat) : Int) = Int.negSucc m := rfl
    have hr : -(2 : Int) ^ 63 ≤ -((m + 1 : Nat) : Int) ∧ -((m + 1 : Nat) : Int) < (2 : Int) ^ 63 := by
      rw [hv]
      exact ⟨hlo, hhi⟩
    simp only [if_true, hr, and_self]
    rw [hv]

/-! ## The paths through `getBusStops` and `getDepartures` -/

/-- The state after a miss of `getBusStops` that fetched and stored `b`. -/
theorem getBusStops_paths (cv : Converters) (a : API) (now : Int) (s : State) :
    (∃ b, s.cache.Get "stops" now = some (Value.busStops b) ∧
        getBusStops cv a now s = (Except.ok b, s)) ∨
    (∃ d, s.cache.Get "stops" now = some (Value.departures d) ∧
        getBusStops cv a now s = (Except.error GoError.typeAssertion, s)) ∨
    (s.cache.Get "stops" now = none ∧ ∃ err,
        a.Client.GetBusStops s.busStopsCalls = Except.error err ∧
        getBusStops cv a now s =
          (Except.error (GoError.client err), { s with busStopsCalls := s.busStopsCalls + 1 })) ∨
    (s.cache.Get "stops" now = none ∧ ∃ raw err,
        a.Client.GetBusStops s.busStopsCalls = Except.ok raw ∧
        cv.convertBusStops raw = Except.error err ∧
        getBusStops cv a now s =
          (Except.error (GoError.convert err), { s with busStopsCalls := s.busStopsCalls + 1 })) ∨
    (s.cache.Get "stops" now = none ∧ ∃ raw conv,
        a.Client.GetBusStops s.busStopsCalls = Except.ok raw ∧
        cv.convertBusStops raw = Except.ok conv ∧
        getBusStops cv a now s =
          (Except.ok { Stops := conv.Stops, nodeIDs := buildNodeIDs conv.Stops },
            { cache := s.cache.Set "stops"
                (Value.busStops { Stops := conv.Stops, nodeIDs := buildNodeIDs conv.Stops })
                a.expiration.stops now
              busStopsCalls := s.busStopsCalls + 1
              forecastCalls := s.forecastCalls })) := by
  unfold getBusStops
  cases hget : s.cache.Get "stops" now with
  | some v =>
    cases v with
    | busStops b => exact Or.inl ⟨b, rfl, rfl⟩
    | departures d => exact Or.inr (Or.inl ⟨d, rfl, rfl⟩)
  | none =>
    cases hc : a.Client.GetBusStops s.busStopsCalls with
    | error err => exact Or.inr (Or.inr (Or.inl ⟨rfl, err, rfl, by simp [hc]⟩))
    | ok raw =>
      cases hv : cv.convertBusStops raw with
      | error err => exact Or.inr (Or.inr (Or.inr (Or.inl ⟨rfl, raw, err, rfl, hv, by simp [hc, hv]⟩)))
      | ok conv => exact Or.inr (Or.inr (Or.inr (Or.inr ⟨rfl, raw, conv, rfl, hv, by simp [hc, hv]⟩)))

theorem getDepartures_paths (cv : Converters) (a : API) (now : Int) (nodeID : Int) (s : State) :
    (∃ d, s.cache.Get (Itoa nodeID) now = some (Value.departures d) ∧
        getDepartures cv a now nodeID s = (Except.ok d, s)) ∨
    (∃ b, s.cache.Get (Itoa nodeID) now = some (Value.busStops b) ∧
        getDepartures cv a now nodeID s = (Except.error GoError.typeAssertion, s)) ∨
    (s.cache.Get (Itoa nodeID) now = none ∧ ∃ err,
        a.Client.GetRealTimeForecast s.forecastCalls nodeID = Except.error err ∧
        getDepartures cv a now nodeID s =
          (Except.error (GoError.client err), { s with forecastCalls := s.forecastCalls + 1 })) ∨
    (s.cache.Get (Itoa nodeID) now = none ∧ ∃ raw err,
        a.Client.GetRealTimeForecast s.forecastCalls nodeID = Except.ok raw ∧
        cv.convertForecasts raw = Except.error err ∧
        getDepartures cv a now nodeID s =
          (Except.error (GoError.convert err), { s with forecastCalls := s.forecastCalls + 1 })) ∨
    (s.cache.Get (Itoa nodeID) now = none ∧ ∃ raw d,
        a.Client.GetRealTimeForecast s.forecastCalls nodeID = Except.ok raw ∧
        cv.convertForecasts raw = Except.ok d ∧
        getDepartures cv a now nodeID s =
          (Except.ok d,
            { cache := s.cache.Set (Itoa nodeID) (Value.departures d) DefaultExpiration now
              busStopsCalls := s.busStopsCalls
              forecastCalls := s.forecastCalls + 1 })) := by
  unfold getDepartures
  cases hget : s.cache.Get (Itoa nodeID) now with
  | some v =>
    cases v with
    | departures d => exact Or.inl ⟨d, rfl, by simp [hget]⟩
    | busStops b => exact Or.inr (Or.inl ⟨b, rfl, by simp [hget]⟩)
  | none =>
    cases hc : a.Client.GetRealTimeForecast s.forecastCalls nodeID with
    | error err => exact Or.inr (Or.inr (Or.inl ⟨rfl, err, rfl, by simp [hget, hc]⟩))
    | ok raw =>
      cases hv : cv.convertForecasts raw with
      | error err =>
        exact Or.inr (Or.inr (Or.inr (Or.inl ⟨rfl, raw, err, rfl, hv, by simp [hget, hc, hv]⟩)))
      | ok d =>
        exact Or.inr (Or.inr (Or.inr (Or.inr ⟨rfl, raw, d, rfl, hv, by simp [hget, hc, hv]⟩)))

/-! ## The cache store -/

theorem Cache_Set_items_same (c : Cache) (k : String) (x : Value) (d now : Int) :
    (c.Set k x d now).items k =
      some { Object := x
             Expiration :=
               if 0 < (if d = DefaultExpiration then c.defaultExpiration else d)
               then some (now + (if d = DefaultExpiration then c.defaultExpiration else d))
               else none } := by
  simp [Cache.Set]

theorem Cache_Set_items_other (c : Cache) (k k2 : String) (x : Value) (d now : Int) (h : k2 ≠ k) :
    (c.Set k x d now).items k2 = c.items k2 := by
  simp [Cache.Set, h]

/-- An entry is live from the instant it is stored until its configured
time-to-live has passed, whatever the default of the store. -/
theorem Cache_Get_Set_within (c : Cache) (k : String) (x : Value) (d t1 t2 : Int)
    (h12 : t1 ≤ t2) (hwin : t2 ≤ t1 + d) : (c.Set k x d t1).Get k t2 = some x := by
  unfold Cache.Get
  rw [Cache_Set_items_same]
  simp only [Item.Expired, DefaultExpiration]
  by_cases hd : d = 0
  · subst hd
    by_cases hde : 0 < c.defaultExpiration
    · have hlt : ¬ (t1 + c.defaultExpiration < t2) := by omega
      simp [hde, hlt]
    · simp [hde]
  · have hpos : 0 < d := by omega
    have hlt : ¬ (t1 + d < t2) := by omega
    simp [hd, hpos, hlt]

/-- An entry stored with a positive time-to-live is a miss once that time has
passed. -/
theorem Cache_Get_Set_after (c : Cache) (k : String) (x : Value) (d t1 t2 : Int)
    (hpos : 0 < d) (hexp : t1 + d < t2) : (c.Set k x d t1).Get k t2 = none := by
  unfold Cache.Get
  rw [Cache_Set_items_same]
  have hd : d ≠ 0 := by omega
  simp [Item.Expired, DefaultExpiration, hd, hpos, hexp]

/-- A miss stays a miss as time passes, as long as nothing is stored. -/
theorem Cache_Get_none_mono (c : Cache) (k : String) (t1 t2 : Int) (h12 : t1 ≤ t2)
    (h : c.Get k t1 = none) : c.Get k t2 = none := by
  unfold Cache.Get at h ⊢
  cases hit : c.items k with
  | none => simp
  | some it =>
    rw [hit] at h
    cases he : it.Expiration with
    | none => simp [Item.Expired, he] at h
    | some e =>
      have h1 : e < t1 := by
        by_contra hne
        simp [Item.Expired, he, hne] at h
      have h2 : e < t2 := by omega
      simp [Item.Expired, he, h2]

theorem Cache_Get_some_items (c : Cache) (k : String) (now : Int) (v : Value)
    (h : c.Get k now = some v) : ∃ it, c.items k = some it ∧ it.Object = v := by
  unfold Cache.Get at h
  cases hit : c.items k with
  | none => simp [hit] at h
  | some it =>
    rw [hit] at h
    by_cases he : it.Expired now = true
    · simp [he] at h
    · simp [he] at h
      exact ⟨it, rfl, h⟩

/-! ## The index of a stop directory -/

/-- Storing under a key leaves every present key present. -/
theorem buildLoop_keeps (stops : List BusStop) (l : List (Fin stops.length)) :
    ∀ (m : NodeIDMap) (k : Int), m k ≠ none →
      (l.foldl (fun m i => NodeIDMap.store m (stops.get i).NodeID { base := stops, idx := i }) m) k
        ≠ none := by
  induction l with
  | nil => intro m k h; simpa using h
  | cons i l ih =>
    intro m k h
    rw [List.foldl_cons]
    apply ih
    show (if k = (stops.get i).NodeID then some _ else m k) ≠ none
    by_cases hk : k = (stops.get i).NodeID
    · rw [if_pos hk]
      exact Option.some_ne_none _
    · rw [if_neg hk]
      exact h

theorem buildLoop_mem (stops : List BusStop) (l : List (Fin stops.length)) :
    ∀ (m : NodeIDMap) (i : Fin stops.length), i ∈ l →
      (l.foldl (fun m i => NodeIDMap.store m (stops.get i).NodeID { base := stops, idx := i }) m)
        (stops.get i).NodeID ≠ none := by
  induction l with
  | nil => intro m i h; cases h
  | cons j l ih =>
    intro m i h
    rw [List.foldl_cons]
    rcases List.mem_cons.mp h with hij | hil
    · subst hij
      apply buildLoop_keeps
      show (if (stops.get i).NodeID = (stops.get i).NodeID then some _ else m _) ≠ none
      rw [if_pos rfl]
      exact Option.some_ne_none _
    · exact ih _ i hil

theorem buildLoop_sound (stops : List BusStop) (l : List (Fin stops.length)) :
    ∀ (m : NodeIDMap),
      (∀ k p, m k = some p → p.base = stops ∧ p.deref.NodeID = k) →
      ∀ k p,
        (l.foldl (fun m i => NodeIDMap.store m (stops.get i).NodeID { base := stops, idx := i }) m) k
          = some p →
        p.base = stops ∧ p.deref.NodeID = k := by
  induction l with
  | nil => intro m hm k p h; exact hm k p h
  | cons i l ih =>
    intro m hm k p h
    rw [List.foldl_cons] at h
    refine ih _ ?_ k p h
    intro k2 p2 h2
    have h3 : (if k2 = (stops.get i).NodeID then some { base := stops, idx := i } else m k2)
        = some p2 := h2
    by_cases hk : k2 = (stops.get i).NodeID
    · rw [if_pos hk] at h3
      have h4 := Option.some.inj h3
      subst h4
      exact ⟨rfl, hk.symm⟩
    · rw [if_neg hk] at h3
      exact hm k2 p2 h3

/-- Every entry of the index points into the indexed sequence, at a stop with
the key as its node identifier. -/
theorem buildNodeIDs_sound (stops : List BusStop) (k : Int) (p : BusStopPtr)
    (h : buildNodeIDs stops k = some p) : p.base = stops ∧ p.deref.NodeID = k :=
  buildLoop_sound stops _ (fun _ => none) (fun _ _ h0 => by cases h0) k p h

/-- The node identifier of every stop of the sequence is a key of the index. -/
theorem buildNodeIDs_complete (stops : List BusStop) (stop : BusStop) (h : stop ∈ stops) :
    ∃ p, buildNodeIDs stops stop.NodeID = some p := by
  obtain ⟨i, hi⟩ := List.get_of_mem h
  have hmem : i ∈ List.finRange stops.length := List.mem_finRange i
  have h1 := buildLoop_mem stops _ (fun _ => none) i hmem
  rw [hi] at h1
  exact Option.ne_none_iff_exists'.mp h1

/-! ## The typing invariant of the cache -/

theorem CacheTyped_New (cv : Converters) (a : API) (de : Int) : CacheTyped cv a (Cache.New de) := by
  intro k it h
  simp [Cache.New] at h

theorem CacheTyped_Set_busStops (cv : Converters) (a : API) (c : Cache) (hc : CacheTyped cv a c)
    (stops : List BusStop) (d now : Int) :
    CacheTyped cv a
      (c.Set "stops" (Value.busStops { Stops := stops, nodeIDs := buildNodeIDs stops }) d now) := by
  intro k it h
  by_cases hk : k = "stops"
  · subst hk
    rw [Cache_Set_items_same] at h
    have h1 := Option.some.inj h
    subst h1
    exact Or.inl ⟨rfl, _, rfl, rfl⟩
  · rw [Cache_Set_items_other _ _ _ _ _ _ hk] at h
    exact hc k it h

theorem CacheTyped_Set_departures (cv : Converters) (a : API) (c : Cache) (hc : CacheTyped cv a c)
    (n : Int) (i : Nat) (raw : atb.Forecasts) (dep : Departures)
    (hraw : a.Client.GetRealTimeForecast i n = Except.ok raw)
    (hconv : cv.convertForecasts raw = Except.ok dep) (d now : Int) :
    CacheTyped cv a (c.Set (Itoa n) (Value.departures dep) d now) := by
  intro k it h
  by_cases hk : k = Itoa n
  · subst hk
    rw [Cache_Set_items_same] at h
    have h1 := Option.some.inj h
    subst h1
    exact Or.inr ⟨n, i, raw, dep, rfl, hraw, hconv, rfl⟩
  · rw [Cache_Set_items_other _ _ _ _ _ _ hk] at h
    exact hc k it h

theorem CacheTyped_DeleteExpired (cv : Converters) (a : API) (c : Cache) (hc : CacheTyped cv a c)
    (now : Int) : CacheTyped cv a (c.DeleteExpired now) := by
  intro k it h
  simp only [Cache.DeleteExpired] at h
  cases hit : c.items k with
  | none => simp [hit] at h
  | some it2 =>
    rw [hit] at h
    by_cases he : it2.Expired now = true
    · simp [he] at h
    · simp [he] at h
      subst h
      exact hc k it2 hit

theorem getBusStops_CacheTyped (cv : Converters) (a : API) (now : Int) (s : State)
    (hs : CacheTyped cv a s.cache) : CacheTyped cv a (getBusStops cv a now s).2.cache := by
  rcases getBusStops_paths cv a now s with ⟨b, _, h⟩ | ⟨d, _, h⟩ | ⟨_, err, _, h⟩ |
    ⟨_, raw, err, _, _, h⟩ | ⟨_, raw, conv, _, _, h⟩
  · rw [h]; exact hs
  · rw [h]; exact hs
  · rw [h]; exact hs
  · rw [h]; exact hs
  · rw [h]; exact CacheTyped_Set_busStops cv a s.cache hs conv.Stops _ _

theorem getDepartures_CacheTyped (cv : Converters) (a : API) (now : Int) (nodeID : Int) (s : State)
    (hs : CacheTyped cv a s.cache) : CacheTyped cv a (getDepartures cv a now nodeID s).2.cache := by
  rcases getDepartures_paths cv a now nodeID s with ⟨d, _, h⟩ | ⟨b, _, h⟩ | ⟨_, err, _, h⟩ |
    ⟨_, raw, err, _, _, h⟩ | ⟨_, raw, d, hraw, hconv, h⟩
  · rw [h]; exact hs
  · rw [h]; exact hs
  · rw [h]; exact hs
  · rw [h]; exact hs
  · rw [h]; exact CacheTyped_Set_departures cv a s.cache hs nodeID _ raw d hraw hconv _ _

theorem Reachable_CacheTyped (cv : Converters) (a : API) (s : State) (hs : Reachable cv a s) :
    CacheTyped cv a s.cache := by
  induction hs with
  | init => exact CacheTyped_New cv a _
  | afterGetBusStops now s _ ih => exact getBusStops_CacheTyped cv a now s ih
  | afterGetDepartures now nodeID s _ ih => exact getDepartures_CacheTyped cv a now nodeID s ih
  | afterSweep now s _ ih => exact CacheTyped_DeleteExpired cv a s.cache ih now

/-- In a typed cache a hit under "stops" is a stop directory with its own index. -/
theorem CacheTyped_Get_stops (cv : Converters) (a : API) (c : Cache) (hc : CacheTyped cv a c)
    (now : Int) (v : Value) (h : c.Get "stops" now = some v) :
    ∃ b, v = Value.busStops b ∧ b.nodeIDs = buildNodeIDs b.Stops := by
  obtain ⟨it, hit, hobj⟩ := Cache_Get_some_items c "stops" now v h
  rcases hc "stops" it hit with ⟨_, b, hb, hidx⟩ | ⟨n, _, _, _, hk, _⟩
  · exact ⟨b, by rw [← hobj, hb], hidx⟩
  · exact absurd hk.symm (Itoa_ne_stops n)

/-- In a typed cache a hit under the key of a node is the transform of a
forecast returned for that node. -/
theorem CacheTyped_Get_node (cv : Converters) (a : API) (c : Cache) (hc : CacheTyped cv a c)
    (now : Int) (n : Int) (v : Value) (h : c.Get (Itoa n) now = some v) :
    ∃ i raw d, a.Client.GetRealTimeForecast i n = Except.ok raw ∧
      cv.convertForecasts raw = Except.ok d ∧ v = Value.departures d := by
  obtain ⟨it, hit, hobj⟩ := Cache_Get_some_items c (Itoa n) now v h
  rcases hc (Itoa n) it hit with ⟨hk, _⟩ | ⟨m, i, raw, d, hk, hraw, hconv, hd⟩
  · exact absurd hk (Itoa_ne_stops n)
  · have hnm : n = m := Itoa_injective hk
    subst hnm
    exact ⟨i, raw, d, hraw, hconv, by rw [← hobj, hd]⟩

/-! ## Request handlers -/

/-- What `getBusStops` can change: no forecast call is issued, and an entry of
the cache afterwards is an entry from before or the returned directory stored
under "stops". -/
theorem getBusStops_state (cv : Converters) (a : API) (now : Int) (s s1 : State)
    (r : Except GoError BusStops) (h : getBusStops cv a now s = (r, s1)) :
    s1.forecastCalls = s.forecastCalls ∧
    ∀ k it, s1.cache.items k = some it →
      s.cache.items k = some it ∨ (k = "stops" ∧ ∃ b, r = Except.ok b ∧ it.Object = Value.busStops b) := by
  rcases getBusStops_paths cv a now s with ⟨b, _, h2⟩ | ⟨d, _, h2⟩ | ⟨_, err, _, h2⟩ |
    ⟨_, raw, err, _, _, h2⟩ | ⟨_, raw, conv, _, _, h2⟩
  all_goals
    rw [h2] at h
    obtain ⟨hr, hs⟩ := Prod.mk.inj h
    subst hs
    subst hr
  · exact ⟨rfl, fun k it hk => Or.inl hk⟩
  · exact ⟨rfl, fun k it hk => Or.inl hk⟩
  · exact ⟨rfl, fun k it hk => Or.inl hk⟩
  · exact ⟨rfl, fun k it hk => Or.inl hk⟩
  · refine ⟨rfl, fun k it hk => ?_⟩
    by_cases hks : k = "stops"
    · subst hks
      simp only [Cache_Set_items_same] at hk
      have h3 := Option.some.inj hk
      subst h3
      exact Or.inr ⟨rfl, _, rfl, rfl⟩
    · simp only [Cache_Set_items_other _ _ _ _ _ _ hks] at hk
      exact Or.inl hk

/-- C1: when the parsed nodeID is not a key of the index of the directory that
`getBusStops` returns, `DeparturesHandler` answers with status 404, issues no
forecast call, and leaves in the cache only entries that were there before or
the stop directory under "stops": no departures entry is written. -/
theorem DeparturesHandler_unknown_stop_no_forecast (cv : Converters) (a : API) (now : Int)
    (s s1 : State) (nodeIDVar : String) (nodeID : Int) (b : BusStops)
    (hp : Atoi nodeIDVar = Except.ok nodeID)
    (hget : getBusStops cv a now s = (Except.ok b, s1))
    (hn : b.nodeIDs nodeID = none) :
    DeparturesHandler cv a now nodeIDVar s =
        (Except.error
          { err := none
            Status := 404
            Message := "bus stop with nodeID=" ++ Itoa nodeID ++ " not found" }, s1) ∧
      (DeparturesHandler cv a now nodeIDVar s).2.forecastCalls = s.forecastCalls ∧
      ∀ k it, (DeparturesHandler cv a now nodeIDVar s).2.cache.items k = some it →
        s.cache.items k = some it ∨ (k = "stops" ∧ it.Object = Value.busStops b) := by
  have hres : DeparturesHandler cv a now nodeIDVar s =
      (Except.error
        { err := none
          Status := 404
          Message := "bus stop with nodeID=" ++ Itoa nodeID ++ " not found" }, s1) := by
    simp [DeparturesHandler, hp, hget, hn, StatusNotFound]
  obtain ⟨hf, hitems⟩ := getBusStops_state cv a now s s1 _ hget
  refine ⟨hres, by rw [hres]; exact hf, ?_⟩
  intro k it hk
  rw [hres] at hk
  rcases hitems k it hk with h1 | ⟨hks, b2, hb2, hobj⟩
  · exact Or.inl h1
  · have hb : b = b2 := Except.ok.inj hb2
    subst hb
    exact Or.inr ⟨hks, hobj⟩

/-- The scenario of the spec: `GetDepartures("999")` on the three sample stops, from
an empty cache. -/
theorem DeparturesHandler_unknown_stop_no_forecast_witness :
    DeparturesHandler sampleConverters sampleAPI 0 "999" sampleState0 =
        (Except.error
          { err := none
            Status := 404
            Message := "bus stop with nodeID=" ++ Itoa 999 ++ " not found" }, sampleState1) ∧
      (DeparturesHandler sampleConverters sampleAPI 0 "999" sampleState0).2.forecastCalls
        = sampleState0.forecastCalls ∧
      ∀ k it,
        (DeparturesHandler sampleConverters sampleAPI 0 "999" sampleState0).2.cache.items k = some it →
        sampleState0.cache.items k = some it ∨
          (k = "stops" ∧ it.Object = Value.busStops sampleDirectory) :=
  DeparturesHandler_unknown_stop_no_forecast sampleConverters sampleAPI 0 sampleState0 sampleState1
    "999" 999 sampleDirectory (by decide) rfl rfl

theorem notFound_message_contains (nodeID : Int) :
    (Itoa nodeID).data <:+: ("bus stop with nodeID=" ++ Itoa nodeID ++ " not found").data :=
  ⟨("bus stop with nodeID=" : String).data, (" not found" : String).data, by
    simp [String.data_append]⟩

/-- C6: when the parsed nodeID is not a key of the index of the directory that
`getBusStops` returns, `BusStopHandler` and `DeparturesHandler` both return an
Error with Status 404 whose Message contains the decimal representation
`Itoa nodeID` of the requested nodeID. -/
theorem unknown_stop_status_and_message (cv : Converters) (a : API) (now : Int)
    (s s1 : State) (nodeIDVar : String) (nodeID : Int) (b : BusStops)
    (hp : Atoi nodeIDVar = Except.ok nodeID)
    (hget : getBusStops cv a now s = (Except.ok b, s1))
    (hn : b.nodeIDs nodeID = none) :
    ∃ e1 e2,
      (BusStopHandler cv a now nodeIDVar s).1 = Except.error e1 ∧
      (DeparturesHandler cv a now nodeIDVar s).1 = Except.error e2 ∧
      e1.Status = 404 ∧ e2.Status = 404 ∧
      (Itoa nodeID).data <:+: e1.Message.data ∧ (Itoa nodeID).data <:+: e2.Message.data := by
  refine ⟨{ err := none, Status := 404,
            Message := "bus stop with nodeID=" ++ Itoa nodeID ++ " not found" },
          { err := none, Status := 404,
            Message := "bus stop with nodeID=" ++ Itoa nodeID ++ " not found" }, ?_, ?_, rfl, rfl,
          notFound_message_contains nodeID, notFound_message_contains nodeID⟩
  · simp [BusStopHandler, hp, hget, hn, StatusNotFound]
  · simp [DeparturesHandler, hp, hget, hn, StatusNotFound]

/-- The scenario of the spec: `GetStop("999")` and `GetDepartures("999")` on the
three sample stops; the message contains "999". -/
theorem unknown_stop_status_and_message_witness :
    Itoa 999 = "999" ∧
    ∃ e1 e2,
      (BusStopHandler sampleConverters sampleAPI 0 "999" sampleState0).1 = Except.error e1 ∧
      (DeparturesHandler sampleConverters sampleAPI 0 "999" sampleState0).1 = Except.error e2 ∧
      e1.Status = 404 ∧ e2.Status = 404 ∧
      (Itoa 999).data <:+: e1.Message.data ∧ (Itoa 999).data <:+: e2.Message.data :=
  ⟨by decide,
    unknown_stop_status_and_message sampleConverters sampleAPI 0 sampleState0 sampleState1
      "999" 999 sampleDirectory (by decide) rfl rfl⟩

/-- C7: a path parameter that `Atoi` rejects makes `BusStopHandler` and
`DeparturesHandler` return an Error with Status 400 and the state untouched,
whatever the cache, the clock and the client are (nothing is looked up or
called); a path parameter that `Atoi` accepts never yields Status 400. -/
theorem bad_request_iff_Atoi_rejects (cv : Converters) (a : API) (now : Int) (s : State)
    (nodeIDVar : String) :
    (∀ err, Atoi nodeIDVar = Except.error err →
      BusStopHandler cv a now nodeIDVar s =
        (Except.error { err := some err, Status := 400, Message := "missing or invalid nodeID" }, s) ∧
      DeparturesHandler cv a now nodeIDVar s =
        (Except.error { err := some err, Status := 400, Message := "missing or invalid nodeID" }, s)) ∧
    (∀ nodeID, Atoi nodeIDVar = Except.ok nodeID →
      (∀ e, (BusStopHandler cv a now nodeIDVar s).1 = Except.error e → e.Status ≠ 400) ∧
      (∀ e, (DeparturesHandler cv a now nodeIDVar s).1 = Except.error e → e.Status ≠ 400)) := by
  constructor
  · intro err herr
    constructor
    · simp [BusStopHandler, herr, StatusBadRequest]
    · simp [DeparturesHandler, herr, StatusBadRequest]
  · intro nodeID hok
    constructor
    · intro e he
      unfold BusStopHandler at he
      rw [hok] at he
      simp only at he
      rcases hg : getBusStops cv a now s with ⟨r, s1⟩
      rw [hg] at he
      cases r with
      | error err =>
        simp only [Except.error.injEq] at he
        rw [← he]
        simp [StatusInternalServerError]
      | ok b =>
        simp only at he
        cases hb : b.nodeIDs nodeID with
        | none =>
          rw [hb] at he
          simp only [Except.error.injEq] at he
          rw [← he]
          simp [StatusNotFound]
        | some p =>
          rw [hb] at he
          cases he
    · intro e he
      unfold DeparturesHandler at he
      rw [hok] at he
      simp only at he
      rcases hg : getBusStops cv a now s with ⟨r, s1⟩
      rw [hg] at he
      cases r with
      | error err =>
        simp only [Except.error.injEq] at he
        rw [← he]
        simp [StatusInternalServerError]
      | ok b =>
        simp only at he
        cases hb : b.nodeIDs nodeID with
        | none =>
          rw [hb] at he
          simp only [Except.error.injEq] at he
          rw [← he]
          simp [StatusNotFound]
        | some p =>
          rw [hb] at he
          simp only at he
          rcases hd : getDepartures cv a now nodeID s1 with ⟨r2, s2⟩
          rw [hd] at he
          cases r2 with
          | error err =>
            simp only [Except.error.injEq] at he
            rw [← he]
            simp [StatusInternalServerError]
          | ok d => cases he

theorem BusStopsHandler_failure (cv : Converters) (a : API) (now : Int) (s : State) (c : GoError)
    (h : (getBusStops cv a now s).1 = Except.error c) :
    (BusStopsHandler cv a now s).1 =
      Except.error { err := some c, Status := 500, Message := "failed to get bus stops from atb" } := by
  rcases hg : getBusStops cv a now s with ⟨r, s1⟩
  rw [hg] at h
  simp only at h
  subst h
  simp [BusStopsHandler, hg, StatusInternalServerError]

theorem BusStopHandler_failure (cv : Converters) (a : API) (now : Int) (s : State)
    (nodeIDVar : String) (nodeID : Int) (c : GoError)
    (hp : Atoi nodeIDVar = Except.ok nodeID)
    (h : (getBusStops cv a now s).1 = Except.error c) :
    (BusStopHandler cv a now nodeIDVar s).1 =
      Except.error { err := some c, Status := 500, Message := "failed to get bus stops from atb" } := by
  rcases hg : getBusStops cv a now s with ⟨r, s1⟩
  rw [hg] at h
  simp only at h
  subst h
  simp [BusStopHandler, hp, hg, StatusInternalServerError]

theorem DeparturesHandler_stops_failure (cv : Converters) (a : API) (now : Int) (s : State)
    (nodeIDVar : String) (nodeID : Int) (c : GoError)
    (hp : Atoi nodeIDVar = Except.ok nodeID)
    (h : (getBusStops cv a now s).1 = Except.error c) :
    (DeparturesHandler cv a now nodeIDVar s).1 =
      Except.error { err := some c, Status := 500, Message := "could not get bus stops from atb" } := by
  rcases hg : getBusStops cv a now s with ⟨r, s1⟩
  rw [hg] at h
  simp only at h
  subst h
  simp [DeparturesHandler, hp, hg, StatusInternalServerError]

theorem DeparturesHandler_departures_failure (cv : Converters) (a : API) (now : Int) (s : State)
    (nodeIDVar : String) (nodeID : Int) (c : GoError)
    (hp : Atoi nodeIDVar = Except.ok nodeID)
    (hknown : ∃ b, (getBusStops cv a now s).1 = Except.ok b ∧ b.nodeIDs nodeID ≠ none)
    (h : (getDepartures cv a now nodeID (getBusStops cv a now s).2).1 = Except.error c) :
    (DeparturesHandler cv a now nodeIDVar s).1 =
      Except.error { err := some c, Status := 500, Message := "could not get departures from atb" } := by
  obtain ⟨b, hb, hne⟩ := hknown
  rcases hg : getBusStops cv a now s with ⟨r, s1⟩
  rw [hg] at hb h
  simp only at hb h
  subst hb
  obtain ⟨p, hp2⟩ := Option.ne_none_iff_exists'.mp hne
  rcases hd : getDepartures cv a now nodeID s1 with ⟨r2, s2⟩
  rw [hd] at h
  simp only at h
  subst h
  simp [DeparturesHandler, hp, hg, hp2, hd, StatusInternalServerError]

/-- C5: the Status and Message of the Error that `BusStopsHandler`,
`BusStopHandler` and `DeparturesHandler` return when `getBusStops` or
`getDepartures` fails do not depend on the cause: in any two runs of the same
handler that fail at the same point with causes `c1` and `c2`, both Errors
have Status 500 and the same fixed Message; the cause only fills the field
`err`, which is not part of the response. -/
theorem failure_status_message_independent_of_cause
    (cv1 cv2 : Converters) (a1 a2 : API) (now1 now2 : Int) (s1 s2 : State)
    (nodeIDVar : String) (nodeID : Int) (c1 c2 : GoError) :
    ((getBusStops cv1 a1 now1 s1).1 = Except.error c1 →
     (getBusStops cv2 a2 now2 s2).1 = Except.error c2 →
      ∃ e1 e2, (BusStopsHandler cv1 a1 now1 s1).1 = Except.error e1 ∧
        (BusStopsHandler cv2 a2 now2 s2).1 = Except.error e2 ∧
        e1.Status = 500 ∧ e2.Status = 500 ∧
        e1.Message = "failed to get bus stops from atb" ∧ e2.Message = e1.Message) ∧
    (Atoi nodeIDVar = Except.ok nodeID →
     (getBusStops cv1 a1 now1 s1).1 = Except.error c1 →
     (getBusStops cv2 a2 now2 s2).1 = Except.error c2 →
      (∃ e1 e2, (BusStopHandler cv1 a1 now1 nodeIDVar s1).1 = Except.error e1 ∧
        (BusStopHandler cv2 a2 now2 nodeIDVar s2).1 = Except.error e2 ∧
        e1.Status = 500 ∧ e2.Status = 500 ∧
        e1.Message = "failed to get bus stops from atb" ∧ e2.Message = e1.Message) ∧
      (∃ e1 e2, (DeparturesHandler cv1 a1 now1 nodeIDVar s1).1 = Except.error e1 ∧
        (DeparturesHandler cv2 a2 now2 nodeIDVar s2).1 = Except.error e2 ∧
        e1.Status = 500 ∧ e2.Status = 500 ∧
        e1.Message = "could not get bus stops from atb" ∧ e2.Message = e1.Message)) ∧
    (Atoi nodeIDVar = Except.ok nodeID →
     (∃ b, (getBusStops cv1 a1 now1 s1).1 = Except.ok b ∧ b.nodeIDs nodeID ≠ none) →
     (∃ b, (getBusStops cv2 a2 now2 s2).1 = Except.ok b ∧ b.nodeIDs nodeID ≠ none) →
     (getDepartures cv1 a1 now1 nodeID (getBusStops cv1 a1 now1 s1).2).1 = Except.error c1 →
     (getDepartures cv2 a2 now2 nodeID (getBusStops cv2 a2 now2 s2).2).1 = Except.error c2 →
      ∃ e1 e2, (DeparturesHandler cv1 a1 now1 nodeIDVar s1).1 = Except.error e1 ∧
        (DeparturesHandler cv2 a2 now2 nodeIDVar s2).1 = Except.error e2 ∧
        e1.Status = 500 ∧ e2.Status = 500 ∧
        e1.Message = "could not get departures from atb" ∧ e2.Message = e1.Message) := by
  refine ⟨?_, ?_, ?_⟩
  · intro h1 h2
    exact ⟨_, _, BusStopsHandler_failure cv1 a1 now1 s1 c1 h1,
      BusStopsHandler_failure cv2 a2 now2 s2 c2 h2, rfl, rfl, rfl, rfl⟩
  · intro hp h1 h2
    exact ⟨⟨_, _, BusStopHandler_failure cv1 a1 now1 s1 nodeIDVar nodeID c1 hp h1,
        BusStopHandler_failure cv2 a2 now2 s2 nodeIDVar nodeID c2 hp h2, rfl, rfl, rfl, rfl⟩,
      ⟨_, _, DeparturesHandler_stops_failure cv1 a1 now1 s1 nodeIDVar nodeID c1 hp h1,
        DeparturesHandler_stops_failure cv2 a2 now2 s2 nodeIDVar nodeID c2 hp h2, rfl, rfl, rfl, rfl⟩⟩
  · intro hp hk1 hk2 h1 h2
    exact ⟨_, _, DeparturesHandler_departures_failure cv1 a1 now1 s1 nodeIDVar nodeID c1 hp hk1 h1,
      DeparturesHandler_departures_failure cv2 a2 now2 s2 nodeIDVar nodeID c2 hp hk2 h2,
      rfl, rfl, rfl, rfl⟩

/-- C10: when `getBusStops` or `getDepartures` returns an error, the cache
after the call is the cache before it; and when the error comes from the
upstream call or the transform, a later call for the same key is again a miss
and issues one more upstream call. -/
theorem failure_leaves_cache_unchanged (cv : Converters) (a : API) (now : Int) (s : State) :
    (∀ c, (getBusStops cv a now s).1 = Except.error c →
      (getBusStops cv a now s).2.cache = s.cache ∧
      (c ≠ GoError.typeAssertion → ∀ now2, now ≤ now2 →
        (getBusStops cv a now s).2.cache.Get "stops" now2 = none ∧
        (getBusStops cv a now2 (getBusStops cv a now s).2).2.busStopsCalls
          = (getBusStops cv a now s).2.busStopsCalls + 1)) ∧
    (∀ nodeID c, (getDepartures cv a now nodeID s).1 = Except.error c →
      (getDepartures cv a now nodeID s).2.cache = s.cache ∧
      (c ≠ GoError.typeAssertion → ∀ now2, now ≤ now2 →
        (getDepartures cv a now nodeID s).2.cache.Get (Itoa nodeID) now2 = none ∧
        (getDepartures cv a now2 nodeID (getDepartures cv a now nodeID s).2).2.forecastCalls
          = (getDepartures cv a now nodeID s).2.forecastCalls + 1)) := by
  constructor
  · intro c hc
    have hmiss : ∀ s0 : State, ∀ t, s0.cache.Get "stops" t = none →
        (getBusStops cv a t s0).2.busStopsCalls = s0.busStopsCalls + 1 := by
      intro s0 t h0
      rcases getBusStops_paths cv a t s0 with ⟨b, hg, _⟩ | ⟨d, hg, _⟩ | ⟨_, err, _, h⟩ |
        ⟨_, raw, err, _, _, h⟩ | ⟨_, raw, conv, _, _, h⟩
      · rw [h0] at hg; cases hg
      · rw [h0] at hg; cases hg
      · rw [h]
      · rw [h]
      · rw [h]
    rcases getBusStops_paths cv a now s with ⟨b, _, h⟩ | ⟨d, _, h⟩ | ⟨hg, err, _, h⟩ |
      ⟨hg, raw, err, _, _, h⟩ | ⟨_, raw, conv, _, _, h⟩
    · rw [h] at hc; cases hc
    · rw [h] at hc ⊢
      refine ⟨rfl, fun hne => ?_⟩
      exact absurd (Except.error.inj hc).symm hne
    · rw [h]
      refine ⟨rfl, fun _ now2 h12 => ?_⟩
      have hm : s.cache.Get "stops" now2 = none := Cache_Get_none_mono _ _ _ _ h12 hg
      exact ⟨hm, hmiss _ now2 hm⟩
    · rw [h]
      refine ⟨rfl, fun _ now2 h12 => ?_⟩
      have hm : s.cache.Get "stops" now2 = none := Cache_Get_none_mono _ _ _ _ h12 hg
      exact ⟨hm, hmiss _ now2 hm⟩
    · rw [h] at hc; cases hc
  · intro nodeID c hc
    have hmiss : ∀ s0 : State, ∀ t, s0.cache.Get (Itoa nodeID) t = none →
        (getDepartures cv a t nodeID s0).2.forecastCalls = s0.forecastCalls + 1 := by
      intro s0 t h0
      rcases getDepartures_paths cv a t nodeID s0 with ⟨b, hg, _⟩ | ⟨d, hg, _⟩ | ⟨_, err, _, h⟩ |
        ⟨_, raw, err, _, _, h⟩ | ⟨_, raw, conv, _, _, h⟩
      · rw [h0] at hg; cases hg
      · rw [h0] at hg; cases hg
      · rw [h]
      · rw [h]
      · rw [h]
    rcases getDepartures_paths cv a now nodeID s with ⟨b, _, h⟩ | ⟨d, _, h⟩ | ⟨hg, err, _, h⟩ |
      ⟨hg, raw, err, _, _, h⟩ | ⟨_, raw, conv, _, _, h⟩
    · rw [h] at hc; cases hc
    · rw [h] at hc ⊢
      refine ⟨rfl, fun hne => ?_⟩
      exact absurd (Except.error.inj hc).symm hne
    · rw [h]
      refine ⟨rfl, fun _ now2 h12 => ?_⟩
      have hm : s.cache.Get (Itoa nodeID) now2 = none := Cache_Get_none_mono _ _ _ _ h12 hg
      exact ⟨hm, hmiss _ now2 hm⟩
    · rw [h]
      refine ⟨rfl, fun _ now2 h12 => ?_⟩
      have hm : s.cache.Get (Itoa nodeID) now2 = none := Cache_Get_none_mono _ _ _ _ h12 hg
      exact ⟨hm, hmiss _ now2 hm⟩
    · rw [h] at hc; cases hc

/-! ## Cache-aside reads of the stop directory -/

theorem getBusStops_hit (cv : Converters) (a : API) (now : Int) (s : State) (b : BusStops)
    (h : s.cache.Get "stops" now = some (Value.busStops b)) :
    getBusStops cv a now s = (Except.ok b, s) := by
  simp [getBusStops, h]

theorem getBusStops_miss_ok (cv : Converters) (a : API) (now : Int) (s : State)
    (raw : atb.BusStops) (conv : BusStops)
    (hmiss : s.cache.Get "stops" now = none)
    (hup : a.Client.GetBusStops s.busStopsCalls = Except.ok raw)
    (hconv : cv.convertBusStops raw = Except.ok conv) :
    getBusStops cv a now s =
      (Except.ok { Stops := conv.Stops, nodeIDs := buildNodeIDs conv.Stops },
        { cache := s.cache.Set "stops"
            (Value.busStops { Stops := conv.Stops, nodeIDs := buildNodeIDs conv.Stops })
            a.expiration.stops now
          busStopsCalls := s.busStopsCalls + 1
          forecastCalls := s.forecastCalls }) := by
  simp [getBusStops, hmiss, hup, hconv]

/-- C3: from a state with no live entry under "stops", where the upstream
answers the call with a stop list that the transform accepts, a call of
`getBusStops` at `t1` followed by one at `t2` within the stop-expiration
window issue one upstream call in total: the first returns the directory and
issues the call, the second returns the same directory and leaves the state,
the call counter included, as the first left it. -/
theorem getBusStops_twice_within_window (cv : Converters) (a : API) (t1 t2 : Int) (s : State)
    (raw : atb.BusStops) (conv : BusStops)
    (hmiss : s.cache.Get "stops" t1 = none)
    (hup : a.Client.GetBusStops s.busStopsCalls = Except.ok raw)
    (hconv : cv.convertBusStops raw = Except.ok conv)
    (h12 : t1 ≤ t2) (hwin : t2 ≤ t1 + a.expiration.stops) :
    (getBusStops cv a t1 s).1
        = Except.ok { Stops := conv.Stops, nodeIDs := buildNodeIDs conv.Stops } ∧
      (getBusStops cv a t1 s).2.busStopsCalls = s.busStopsCalls + 1 ∧
      (getBusStops cv a t2 (getBusStops cv a t1 s).2).1 = (getBusStops cv a t1 s).1 ∧
      (getBusStops cv a t2 (getBusStops cv a t1 s).2).2 = (getBusStops cv a t1 s).2 ∧
      (getBusStops cv a t2 (getBusStops cv a t1 s).2).2.busStopsCalls = s.busStopsCalls + 1 := by
  have h1 := getBusStops_miss_ok cv a t1 s raw conv hmiss hup hconv
  rw [h1]
  have hlive := Cache_Get_Set_within s.cache "stops"
    (Value.busStops { Stops := conv.Stops, nodeIDs := buildNodeIDs conv.Stops })
    a.expiration.stops t1 t2 h12 hwin
  have h2 := getBusStops_hit cv a t2
    { cache := s.cache.Set "stops"
        (Value.busStops { Stops := conv.Stops, nodeIDs := buildNodeIDs conv.Stops })
        a.expiration.stops t1
      busStopsCalls := s.busStopsCalls + 1
      forecastCalls := s.forecastCalls } _ hlive
  rw [h2]
  exact ⟨rfl, rfl, rfl, rfl, rfl⟩

/-- Two calls on the sample data, at instants 0 and 600 with a stop expiration
of 600. -/
theorem getBusStops_twice_within_window_witness :
    (getBusStops sampleConverters sampleAPI 0 sampleState0).1
        = Except.ok { Stops := sampleStops, nodeIDs := buildNodeIDs sampleStops } ∧
      (getBusStops sampleConverters sampleAPI 0 sampleState0).2.busStopsCalls
        = sampleState0.busStopsCalls + 1 ∧
      (getBusStops sampleConverters sampleAPI 600
          (getBusStops sampleConverters sampleAPI 0 sampleState0).2).1
        = (getBusStops sampleConverters sampleAPI 0 sampleState0).1 ∧
      (getBusStops sampleConverters sampleAPI 600
          (getBusStops sampleConverters sampleAPI 0 sampleState0).2).2
        = (getBusStops sampleConverters sampleAPI 0 sampleState0).2 ∧
      (getBusStops sampleConverters sampleAPI 600
          (getBusStops sampleConverters sampleAPI 0 sampleState0).2).2.busStopsCalls
        = sampleState0.busStopsCalls + 1 :=
  getBusStops_twice_within_window sampleConverters sampleAPI 0 600 sampleState0 sampleRawStops
    { Stops := sampleStops, nodeIDs := fun _ => none } rfl rfl rfl (by decide) (by decide)

/-- A miss under "stops" issues one upstream call, whatever its outcome. -/
theorem getBusStops_miss_calls (cv : Converters) (a : API) (now : Int) (s : State)
    (hmiss : s.cache.Get "stops" now = none) :
    (getBusStops cv a now s).2.busStopsCalls = s.busStopsCalls + 1 := by
  rcases getBusStops_paths cv a now s with ⟨b, hg, _⟩ | ⟨d, hg, _⟩ | ⟨_, err, _, h⟩ |
    ⟨_, raw, err, _, _, h⟩ | ⟨_, raw, conv, _, _, h⟩
  · rw [hmiss] at hg; cases hg
  · rw [hmiss] at hg; cases hg
  · rw [h]
  · rw [h]
  · rw [h]

/-- C4, as the code has it: with a positive stop expiration, from a state with
no live entry under "stops", a call of `getBusStops` at `t1` that populates the
cache followed by a call at `t2` later than `t1 + stopsExpiration`: the second
call issues a second upstream call, and when the upstream answers it with a
stop list that the transform accepts, the entry under "stops" is replaced by
one value made of the new stops and of an index in which every entry points
into that same sequence (so not into the sequence of the previous directory),
at a stop whose node identifier is the key, and which has a key for every stop
of the sequence. -/
theorem getBusStops_refresh_after_window (cv : Converters) (a : API) (t1 t2 : Int) (s : State)
    (raw1 : atb.BusStops) (conv1 : BusStops)
    (hpos : 0 < a.expiration.stops)
    (hmiss : s.cache.Get "stops" t1 = none)
    (hup1 : a.Client.GetBusStops s.busStopsCalls = Except.ok raw1)
    (hconv1 : cv.convertBusStops raw1 = Except.ok conv1)
    (hexp : t1 + a.expiration.stops < t2) :
    (getBusStops cv a t2 (getBusStops cv a t1 s).2).2.busStopsCalls = s.busStopsCalls + 2 ∧
    ∀ raw2 conv2,
      a.Client.GetBusStops (s.busStopsCalls + 1) = Except.ok raw2 →
      cv.convertBusStops raw2 = Except.ok conv2 →
      ∃ it b,
        (getBusStops cv a t2 (getBusStops cv a t1 s).2).2.cache.items "stops" = some it ∧
        it.Object = Value.busStops b ∧
        (getBusStops cv a t2 (getBusStops cv a t1 s).2).1 = Except.ok b ∧
        b.Stops = conv2.Stops ∧
        (∀ k p, b.nodeIDs k = some p → p.base = b.Stops ∧ p.deref.NodeID = k) ∧
        (∀ k p, b.nodeIDs k = some p → conv1.Stops ≠ b.Stops → p.base ≠ conv1.Stops) ∧
        (∀ stop ∈ b.Stops, ∃ p, b.nodeIDs stop.NodeID = some p) := by
  have h1 := getBusStops_miss_ok cv a t1 s raw1 conv1 hmiss hup1 hconv1
  rw [h1]
  have hgone := Cache_Get_Set_after s.cache "stops"
    (Value.busStops { Stops := conv1.Stops, nodeIDs := buildNodeIDs conv1.Stops })
    a.expiration.stops t1 t2 hpos hexp
  constructor
  · exact getBusStops_miss_calls cv a t2
      { cache := s.cache.Set "stops"
          (Value.busStops { Stops := conv1.Stops, nodeIDs := buildNodeIDs conv1.Stops })
          a.expiration.stops t1
        busStopsCalls := s.busStopsCalls + 1
        forecastCalls := s.forecastCalls } hgone
  · intro raw2 conv2 hup2 hconv2
    have h2 := getBusStops_miss_ok cv a t2
      { cache := s.cache.Set "stops"
          (Value.busStops { Stops := conv1.Stops, nodeIDs := buildNodeIDs conv1.Stops })
          a.expiration.stops t1
        busStopsCalls := s.busStopsCalls + 1
        forecastCalls := s.forecastCalls } raw2 conv2 hgone hup2 hconv2
    rw [h2]
    refine ⟨_, { Stops := conv2.Stops, nodeIDs := buildNodeIDs conv2.Stops },
      Cache_Set_items_same _ _ _ _ _, rfl, rfl, rfl, ?_, ?_, ?_⟩
    · intro k p hk
      exact buildNodeIDs_sound conv2.Stops k p hk
    · intro k p hk hne hbase
      exact hne (hbase.symm.trans (buildNodeIDs_sound conv2.Stops k p hk).1)
    · intro stop hstop
      exact buildNodeIDs_complete conv2.Stops stop hstop

/-- The refresh of C4 on the sample data: `New(sampleClient, 600, 30)`, a first
call at instant 0 and a second at instant 601. -/
theorem getBusStops_refresh_after_window_witness :
    (getBusStops sampleConverters sampleAPI 601
        (getBusStops sampleConverters sampleAPI 0 sampleState0).2).2.busStopsCalls
      = sampleState0.busStopsCalls + 2 ∧
    ∃ it b,
      (getBusStops sampleConverters sampleAPI 601
        (getBusStops sampleConverters sampleAPI 0 sampleState0).2).2.cache.items "stops" = some it ∧
      it.Object = Value.busStops b ∧
      (getBusStops sampleConverters sampleAPI 601
        (getBusStops sampleConverters sampleAPI 0 sampleState0).2).1 = Except.ok b ∧
      b.Stops = sampleStopsLater ∧
      (∀ k p, b.nodeIDs k = some p → p.base = b.Stops ∧ p.deref.NodeID = k) ∧
      (∀ k p, b.nodeIDs k = some p → sampleStops ≠ b.Stops → p.base ≠ sampleStops) ∧
      (∀ stop ∈ b.Stops, ∃ p, b.nodeIDs stop.NodeID = some p) :=
  ⟨(getBusStops_refresh_after_window sampleConverters sampleAPI 0 601 sampleState0
      sampleRawStops { Stops := sampleStops, nodeIDs := fun _ => none }
      (by decide) rfl rfl rfl (by decide)).1,
   (getBusStops_refresh_after_window sampleConverters sampleAPI 0 601 sampleState0
      sampleRawStops { Stops := sampleStops, nodeIDs := fun _ => none }
      (by decide) rfl rfl rfl (by decide)).2
      sampleRawStopsLater { Stops := sampleStopsLater, nodeIDs := fun _ => none } rfl rfl⟩

/-- C4, as stated, fails when the stop expiration is not positive. For
`New(client, 0, 60)` the entry stored at instant 0 gets the default
time-to-live of the store, so a call at instant 1, after the stop-expiration
window of length 0 has elapsed, is a hit: one upstream call in total and the
first directory returned, although the upstream would now answer with another
stop list. For `New(client, cache.NoExpiration, 60)` the entry never expires:
a call at instant 1000000 is a hit as well. -/
theorem getBusStops_nonpositive_stopsExpiration_no_refresh :
    (New sampleClient 0 60).1.expiration.stops = 0 ∧
    (New sampleClient 0 60).2.cache.Get "stops" 0 = none ∧
    (getBusStops sampleConverters (New sampleClient 0 60).1 0 (New sampleClient 0 60).2).1
      = Except.ok sampleDirectory ∧
    (0 : Int) + (New sampleClient 0 60).1.expiration.stops < 1 ∧
    sampleClient.GetBusStops 1 = Except.ok sampleRawStopsLater ∧
    (getBusStops sampleConverters (New sampleClient 0 60).1 1
      (getBusStops sampleConverters (New sampleClient 0 60).1 0 (New sampleClient 0 60).2).2).1
      = Except.ok sampleDirectory ∧
    (getBusStops sampleConverters (New sampleClient 0 60).1 1
      (getBusStops sampleConverters (New sampleClient 0 60).1 0
        (New sampleClient 0 60).2).2).2.busStopsCalls = 1 ∧
    (New sampleClient NoExpiration 60).1.expiration.stops = -1 ∧
    (getBusStops sampleConverters (New sampleClient NoExpiration 60).1 0
      (New sampleClient NoExpiration 60).2).1 = Except.ok sampleDirectory ∧
    (0 : Int) + (New sampleClient NoExpiration 60).1.expiration.stops < 1000000 ∧
    (getBusStops sampleConverters (New sampleClient NoExpiration 60).1 1000000
      (getBusStops sampleConverters (New sampleClient NoExpiration 60).1 0
        (New sampleClient NoExpiration 60).2).2).1 = Except.ok sampleDirectory ∧
    (getBusStops sampleConverters (New sampleClient NoExpiration 60).1 1000000
      (getBusStops sampleConverters (New sampleClient NoExpiration 60).1 0
        (New sampleClient NoExpiration 60).2).2).2.busStopsCalls = 1 :=
  ⟨rfl, rfl, rfl, by decide, rfl, rfl, rfl, rfl, rfl, by decide, rfl, rfl⟩

/-- With a positive stop expiration the entry that a miss of `getBusStops`
stores under "stops" expires at `now + stopsExpiration`, whatever the default
of the store. -/
theorem getBusStops_positive_stopsExpiration (cv : Converters) (a : API) (now : Int) (s : State)
    (raw : atb.BusStops) (conv : BusStops)
    (hpos : 0 < a.expiration.stops)
    (hmiss : s.cache.Get "stops" now = none)
    (hup : a.Client.GetBusStops s.busStopsCalls = Except.ok raw)
    (hconv : cv.convertBusStops raw = Except.ok conv) :
    ((getBusStops cv a now s).2.cache.items "stops").map (fun it => it.Expiration)
      = some (some (now + a.expiration.stops)) := by
  rw [getBusStops_miss_ok cv a now s raw conv hmiss hup hconv]
  have hne : a.expiration.stops ≠ 0 := by omega
  simp [Cache_Set_items_same, DefaultExpiration, hne, hpos]

/-- C8 at `stopsExpiration = 0`: the entry that a miss of `getBusStops` at
instant 5 stores under "stops" expires at `5 + depExpiration` (65 for
`New(client, 0, 60)`, 125 for `New(client, 0, 120)`): its time-to-live is the
departures default of the store, not the configured zero. -/
theorem getBusStops_zero_stopsExpiration_uses_default :
    (((getBusStops sampleConverters (New sampleClient 0 60).1 5
        (New sampleClient 0 60).2).2.cache.items "stops").map fun it => it.Expiration)
      = some (some 65) ∧
    (((getBusStops sampleConverters (New sampleClient 0 120).1 5
        (New sampleClient 0 120).2).2.cache.items "stops").map fun it => it.Expiration)
      = some (some 125) ∧
    (((getBusStops sampleConverters (New sampleClient 600 60).1 5
        (New sampleClient 600 60).2).2.cache.items "stops").map fun it => it.Expiration)
      = some (some 605) :=
  ⟨by decide, by decide, by decide⟩

/-! ## Reachable states -/

/-- C9: in every state reachable from `New` by calls of `getBusStops` and
`getDepartures` (and sweeps), the entry under "stops" holds a stop directory
and every entry under another key holds a departures list; `Itoa` never yields
"stops" and is injective; so neither `getBusStops` nor `getDepartures` returns
the type-assertion error, and a list that `getDepartures` returns for a node
is the transform of a forecast that the client returned for that same node. -/
theorem reachable_cache_is_typed (cv : Converters) (a : API) (s : State)
    (hs : Reachable cv a s) :
    (∀ it, s.cache.items "stops" = some it → ∃ b, it.Object = Value.busStops b) ∧
    (∀ k it, k ≠ "stops" → s.cache.items k = some it → ∃ d, it.Object = Value.departures d) ∧
    (∀ n, Itoa n ≠ "stops") ∧
    Function.Injective Itoa ∧
    (∀ now, (getBusStops cv a now s).1 ≠ Except.error GoError.typeAssertion) ∧
    (∀ now n, (getDepartures cv a now n s).1 ≠ Except.error GoError.typeAssertion) ∧
    (∀ now n d, (getDepartures cv a now n s).1 = Except.ok d →
      ∃ i raw, a.Client.GetRealTimeForecast i n = Except.ok raw ∧
        cv.convertForecasts raw = Except.ok d) := by
  have hc := Reachable_CacheTyped cv a s hs
  refine ⟨?_, ?_, Itoa_ne_stops, Itoa_injective, ?_, ?_, ?_⟩
  · intro it hit
    rcases hc "stops" it hit with ⟨_, b, hb, _⟩ | ⟨n, _, _, _, hk, _⟩
    · exact ⟨b, hb⟩
    · exact absurd hk.symm (Itoa_ne_stops n)
  · intro k it hk hit
    rcases hc k it hit with ⟨hks, _⟩ | ⟨n, _, _, d, _, _, _, hd⟩
    · exact absurd hks hk
    · exact ⟨d, hd⟩
  · intro now habs
    rcases getBusStops_paths cv a now s with ⟨b, _, h⟩ | ⟨d, hg, _⟩ | ⟨_, err, _, h⟩ |
      ⟨_, raw, err, _, _, h⟩ | ⟨_, raw, conv, _, _, h⟩
    · rw [h] at habs; cases habs
    · obtain ⟨b, hb, _⟩ := CacheTyped_Get_stops cv a s.cache hc now _ hg
      cases hb
    · rw [h] at habs; cases habs
    · rw [h] at habs; cases habs
    · rw [h] at habs; cases habs
  · intro now n habs
    rcases getDepartures_paths cv a now n s with ⟨d, _, h⟩ | ⟨b, hg, _⟩ | ⟨_, err, _, h⟩ |
      ⟨_, raw, err, _, _, h⟩ | ⟨_, raw, d, _, _, h⟩
    · rw [h] at habs; cases habs
    · obtain ⟨_, _, d, _, _, hd⟩ := CacheTyped_Get_node cv a s.cache hc now n _ hg
      cases hd
    · rw [h] at habs; cases habs
    · rw [h] at habs; cases habs
    · rw [h] at habs; cases habs
  · intro now n d hd
    rcases getDepartures_paths cv a now n s with ⟨d2, hg, h⟩ | ⟨b, _, h⟩ | ⟨_, err, _, h⟩ |
      ⟨_, raw, err, _, _, h⟩ | ⟨_, raw, d2, hraw, hconv, h⟩
    · rw [h] at hd
      have hdd : d2 = d := Except.ok.inj hd
      subst hdd
      obtain ⟨i, raw, d3, hraw, hconv, hv⟩ := CacheTyped_Get_node cv a s.cache hc now n _ hg
      have h3 : d2 = d3 := Value.departures.inj hv
      subst h3
      exact ⟨i, raw, hraw, hconv⟩
    · rw [h] at hd; cases hd
    · rw [h] at hd; cases hd
    · rw [h] at hd; cases hd
    · rw [h] at hd
      have hdd : d2 = d := Except.ok.inj hd
      subst hdd
      exact ⟨_, raw, hraw, hconv⟩

/-- The state after `getBusStops` and `getDepartures(101)` on the sample data. -/
theorem reachable_cache_is_typed_witness :
    (∀ it, sampleState2.cache.items "stops" = some it → ∃ b, it.Object = Value.busStops b) ∧
    (∀ k it, k ≠ "stops" → sampleState2.cache.items k = some it →
      ∃ d, it.Object = Value.departures d) ∧
    (∀ n, Itoa n ≠ "stops") ∧
    Function.Injective Itoa ∧
    (∀ now, (getBusStops sampleConverters sampleAPI now sampleState2).1
      ≠ Except.error GoError.typeAssertion) ∧
    (∀ now n, (getDepartures sampleConverters sampleAPI now n sampleState2).1
      ≠ Except.error GoError.typeAssertion) ∧
    (∀ now n d, (getDepartures sampleConverters sampleAPI now n sampleState2).1 = Except.ok d →
      ∃ i raw, sampleAPI.Client.GetRealTimeForecast i n = Except.ok raw ∧
        sampleConverters.convertForecasts raw = Except.ok d) :=
  reachable_cache_is_typed sampleConverters sampleAPI sampleState2
    (Reachable.afterGetDepartures 3 101 sampleState1
      (Reachable.afterGetBusStops 0 sampleState0 Reachable.init))

/-- A directory that `getBusStops` returns in a state with a typed cache
carries the index built from its own stops, fetched or cached. -/
theorem getBusStops_ok_indexed (cv : Converters) (a : API) (now : Int) (s s1 : State)
    (b : BusStops) (hc : CacheTyped cv a s.cache)
    (hget : getBusStops cv a now s = (Except.ok b, s1)) :
    b.nodeIDs = buildNodeIDs b.Stops := by
  rcases getBusStops_paths cv a now s with ⟨b2, hg, h⟩ | ⟨d, _, h⟩ | ⟨_, err, _, h⟩ |
    ⟨_, raw, err, _, _, h⟩ | ⟨_, raw, conv, _, _, h⟩
  · rw [h] at hget
    have hb : b2 = b := Except.ok.inj (Prod.mk.inj hget).1
    subst hb
    obtain ⟨b3, hb3, hidx⟩ := CacheTyped_Get_stops cv a s.cache hc now _ hg
    have h4 : b2 = b3 := Value.busStops.inj hb3
    subst h4
    exact hidx
  · rw [h] at hget; cases hget
  · rw [h] at hget; cases hget
  · rw [h] at hget; cases hget
  · rw [h] at hget
    have hb := Except.ok.inj (Prod.mk.inj hget).1
    rw [← hb]

/-- C2: in a reachable state, when the directory comes from the upstream (a
miss under "stops", the client answering with a stop list that the transform
turns into `stops`) or from the cache (a hit under "stops" on a directory with
the stops `stops`), and the path parameter parses to the node identifier of
one of these stops, `BusStopHandler` succeeds and returns a pointer into
`stops` at a stop whose `NodeID` is the requested one. -/
theorem BusStopHandler_returns_requested_stop (cv : Converters) (a : API) (now : Int)
    (s : State) (nodeIDVar : String) (stops : List BusStop) (stop : BusStop)
    (hs : Reachable cv a s)
    (hsrc : (s.cache.Get "stops" now = none ∧ ∃ raw conv,
              a.Client.GetBusStops s.busStopsCalls = Except.ok raw ∧
              cv.convertBusStops raw = Except.ok conv ∧ conv.Stops = stops) ∨
            (∃ b, s.cache.Get "stops" now = some (Value.busStops b) ∧ b.Stops = stops))
    (hmem : stop ∈ stops)
    (hp : Atoi nodeIDVar = Except.ok stop.NodeID) :
    ∃ p, (BusStopHandler cv a now nodeIDVar s).1 = Except.ok p ∧
      p.base = stops ∧ p.deref.NodeID = stop.NodeID := by
  have hget : ∃ b s1, getBusStops cv a now s = (Except.ok b, s1) ∧ b.Stops = stops := by
    rcases hsrc with ⟨hmiss, raw, conv, hup, hconv, hst⟩ | ⟨b, hhit, hst⟩
    · exact ⟨_, _, getBusStops_miss_ok cv a now s raw conv hmiss hup hconv, hst⟩
    · exact ⟨b, s, getBusStops_hit cv a now s b hhit, hst⟩
  obtain ⟨b, s1, hget, hst⟩ := hget
  subst hst
  have hidx := getBusStops_ok_indexed cv a now s s1 b (Reachable_CacheTyped cv a s hs) hget
  obtain ⟨p, hp2⟩ := buildNodeIDs_complete b.Stops stop hmem
  have hsound := buildNodeIDs_sound b.Stops stop.NodeID p hp2
  rw [← hidx] at hp2
  refine ⟨p, ?_, hsound.1, hsound.2⟩
  simp [BusStopHandler, hp, hget, hp2]

/-- The scenario of the spec: `GetStop("102")` on the three sample stops, first
from an empty cache at instant 0 (fetched), then at instant 7 from the state
the first call of `getBusStops` left (cached, no further upstream call). -/
theorem BusStopHandler_returns_requested_stop_witness :
    (∃ p, (BusStopHandler sampleConverters sampleAPI 0 "102" sampleState0).1 = Except.ok p ∧
      p.base = sampleStops ∧ p.deref.NodeID = 102) ∧
    (∃ p, (BusStopHandler sampleConverters sampleAPI 7 "102" sampleState1).1 = Except.ok p ∧
      p.base = sampleStops ∧ p.deref.NodeID = 102) ∧
    (BusStopHandler sampleConverters sampleAPI 7 "102" sampleState1).2.busStopsCalls = 1 :=
  ⟨BusStopHandler_returns_requested_stop sampleConverters sampleAPI 0 sampleState0 "102"
      sampleStops
      { StopID := 2, NodeID := 102, Description := "Prinsens gate", Longitude := "10.39",
        Latitude := "63.43", MobileCode := "16010", MobileName := "Prinsens gt" }
      Reachable.init
      (Or.inl ⟨rfl, sampleRawStops, { Stops := sampleStops, nodeIDs := fun _ => none },
        rfl, rfl, rfl⟩)
      (by decide) (by decide),
    BusStopHandler_returns_requested_stop sampleConverters sampleAPI 7 sampleState1 "102"
      sampleStops
      { StopID := 2, NodeID := 102, Description := "Prinsens gate", Longitude := "10.39",
        Latitude := "63.43", MobileCode := "16010", MobileName := "Prinsens gt" }
      (Reachable.afterGetBusStops 0 sampleState0 Reachable.init)
      (Or.inr ⟨sampleDirectory, rfl, rfl⟩)
      (by decide) (by decide),
    rfl⟩

/-- Two upstreams that fail with different texts give the same status and
message: the stop list in `BusStopsHandler`, the forecast for node 101 in
`DeparturesHandler`. -/
theorem failure_status_message_independent_of_cause_witness :
    (∃ e1 e2,
      (BusStopsHandler sampleConverters (New (failingClient "timeout") 600 30).1 0
        sampleState0).1 = Except.error e1 ∧
      (BusStopsHandler sampleConverters (New (failingClient "connection refused") 600 30).1 0
        sampleState0).1 = Except.error e2 ∧
      e1.Status = 500 ∧ e2.Status = 500 ∧
      e1.Message = "failed to get bus stops from atb" ∧ e2.Message = e1.Message) ∧
    (∃ e1 e2,
      (DeparturesHandler sampleConverters (New (forecastFailingClient "timeout") 600 30).1 0 "101"
        sampleState0).1 = Except.error e1 ∧
      (DeparturesHandler sampleConverters
        (New (forecastFailingClient "connection refused") 600 30).1 0 "101"
        sampleState0).1 = Except.error e2 ∧
      e1.Status = 500 ∧ e2.Status = 500 ∧
      e1.Message = "could not get departures from atb" ∧ e2.Message = e1.Message) :=
  ⟨(failure_status_message_independent_of_cause sampleConverters sampleConverters
      (New (failingClient "timeout") 600 30).1 (New (failingClient "connection refused") 600 30).1
      0 0 sampleState0 sampleState0 "101" 101
      (GoError.client "timeout") (GoError.client "connection refused")).1 rfl rfl,
   (failure_status_message_independent_of_cause sampleConverters sampleConverters
      (New (forecastFailingClient "timeout") 600 30).1
      (New (forecastFailingClient "connection refused") 600 30).1
      0 0 sampleState0 sampleState0 "101" 101
      (GoError.client "timeout") (GoError.client "connection refused")).2.2 (by decide)
      ⟨sampleDirectory, rfl, by
        intro h
        cases h⟩
      ⟨sampleDirectory, rfl, by
        intro h
        cases h⟩
      rfl rfl⟩

/-- The empty string, a non-numeric string and the digits of 2^63 are rejected
with status 400 and the state unchanged; the digits of 2^63 - 1 parse. -/
theorem bad_request_iff_Atoi_rejects_witness :
    (BusStopHandler sampleConverters sampleAPI 0 "" sampleState0 =
        (Except.error { err := some (GoError.numError ""), Status := 400,
                        Message := "missing or invalid nodeID" }, sampleState0) ∧
      DeparturesHandler sampleConverters sampleAPI 0 "" sampleState0 =
        (Except.error { err := some (GoError.numError ""), Status := 400,
                        Message := "missing or invalid nodeID" }, sampleState0)) ∧
    (BusStopHandler sampleConverters sampleAPI 0 "12a" sampleState0 =
        (Except.error { err := some (GoError.numError "12a"), Status := 400,
                        Message := "missing or invalid nodeID" }, sampleState0) ∧
      DeparturesHandler sampleConverters sampleAPI 0 "12a" sampleState0 =
        (Except.error { err := some (GoError.numError "12a"), Status := 400,
                        Message := "missing or invalid nodeID" }, sampleState0)) ∧
    (BusStopHandler sampleConverters sampleAPI 0 "9223372036854775808" sampleState0 =
        (Except.error { err := some (GoError.numError "9223372036854775808"), Status := 400,
                        Message := "missing or invalid nodeID" }, sampleState0) ∧
      DeparturesHandler sampleConverters sampleAPI 0 "9223372036854775808" sampleState0 =
        (Except.error { err := some (GoError.numError "9223372036854775808"), Status := 400,
                        Message := "missing or invalid nodeID" }, sampleState0)) ∧
    Atoi "9223372036854775807" = Except.ok 9223372036854775807 :=
  ⟨(bad_request_iff_Atoi_rejects sampleConverters sampleAPI 0 sampleState0 "").1 _ (by decide),
   (bad_request_iff_Atoi_rejects sampleConverters sampleAPI 0 sampleState0 "12a").1 _ (by decide),
   (bad_request_iff_Atoi_rejects sampleConverters sampleAPI 0 sampleState0
      "9223372036854775808").1 _ (by decide),
   by decide⟩

/-- An upstream that fails: the error is returned, the cache stays as it was,
and a call at instant 9 calls the upstream again. -/
theorem failure_leaves_cache_unchanged_witness :
    (getBusStops sampleConverters (New (failingClient "timeout") 600 30).1 0 sampleState0).1
      = Except.error (GoError.client "timeout") ∧
    (getBusStops sampleConverters (New (failingClient "timeout") 600 30).1 0 sampleState0).2.cache
      = sampleState0.cache ∧
    (getBusStops sampleConverters (New (failingClient "timeout") 600 30).1 9
      (getBusStops sampleConverters (New (failingClient "timeout") 600 30).1 0
        sampleState0).2).2.busStopsCalls = 2 :=
  ⟨rfl,
   ((failure_leaves_cache_unchanged sampleConverters (New (failingClient "timeout") 600 30).1 0
      sampleState0).1 (GoError.client "timeout") rfl).1,
   (((failure_leaves_cache_unchanged sampleConverters (New (failingClient "timeout") 600 30).1 0
      sampleState0).1 (GoError.client "timeout") rfl).2 (by decide) 9 (by decide)).2⟩

end api
